import Mathlib

/-!
Shallow embedding of the CHIP-8 interpreter in `cpu.py` / `emulator.py`.

Python `bytearray` reads and writes, and Python `list` indexing (which
accepts negative indices counting from the end), are modelled as
`Option`-returning operations: `none` models the `IndexError` /
`ValueError` that aborts the host loop in `emulator.py` (which has no
exception handler).  Machine integers are `Nat` (or `Int` where Python
values can go negative, namely the stack pointer and subtraction
operands), with Python's `& 0xFF` on a possibly-negative int modelled as
`Int.emod 256`.
-/

namespace Chip8

/-- Python bytearray read `a[i]` with a nonnegative index; `none` models
`IndexError`. -/
def byteGet (a : List Nat) (i : Nat) : Option Nat := a[i]?

/-- Python bytearray write `a[i] = v`: `none` models `IndexError` (index out
of range) or `ValueError` (value outside `0..255`). -/
def byteSet (a : List Nat) (i : Nat) (v : Nat) : Option (List Nat) :=
  if i < a.length ∧ v < 256 then some (a.set i v) else none

/-- Python list read `l[i]` with an `int` index: negative indices in
`[-len, -1]` count from the end; anything else out of range raises. -/
def pyGet (l : List Nat) (i : Int) : Option Nat :=
  if 0 ≤ i ∧ i < (l.length : Int) then l[i.toNat]?
  else if -(l.length : Int) ≤ i ∧ i < 0 then l[((l.length : Int) + i).toNat]?
  else none

/-- Python list write `l[i] = v` with an `int` index, same indexing rule as
`pyGet`; a Python list holds arbitrary ints, so no value bound. -/
def pySet (l : List Nat) (i : Int) (v : Nat) : Option (List Nat) :=
  if 0 ≤ i ∧ i < (l.length : Int) then some (l.set i.toNat v)
  else if -(l.length : Int) ≤ i ∧ i < 0 then some (l.set ((l.length : Int) + i).toNat v)
  else none

/-- Python `x & 0xFF` for a possibly negative int: bitwise AND with `255` in
two's complement, which on ints is exactly `x mod 256`. -/
def pyAnd255 (x : Int) : Nat := (x % 256).toNat

/-- The font table `FONTSET` of `cpu.py`. -/
def FONTSET : List Nat :=
  [0xF0, 0x90, 0x90, 0x90, 0xF0,
   0x20, 0x60, 0x20, 0x20, 0x70,
   0xF0, 0x10, 0xF0, 0x80, 0xF0,
   0xF0, 0x10, 0xF0, 0x10, 0xF0,
   0x90, 0x90, 0xF0, 0x10, 0x10,
   0xF0, 0x80, 0xF0, 0x10, 0xF0,
   0xF0, 0x80, 0xF0, 0x90, 0xF0,
   0xF0, 0x10, 0x20, 0x40, 0x40,
   0xF0, 0x90, 0xF0, 0x90, 0xF0,
   0xF0, 0x90, 0xF0, 0x10, 0xF0,
   0xF0, 0x90, 0xF0, 0x90, 0x90,
   0xE0, 0x90, 0xE0, 0x90, 0xE0,
   0xF0, 0x80, 0x80, 0x80, 0xF0,
   0xE0, 0x90, 0x90, 0x90, 0xE0,
   0xF0, 0x80, 0xF0, 0x80, 0xF0,
   0xF0, 0x80, 0xF0, 0x80, 0x80]

/-- The mutable state of `CPU.__init__`. -/
structure CPU where
  opcode : Nat
  memory : List Nat
  registers : List Nat
  I : Nat
  pc : Nat
  gfx : List Nat
  delay_timer : Nat
  sound_timer : Nat
  stack : List Nat
  sp : Int
  key : List Nat
  drawFlag : Bool
  deriving Repr, DecidableEq

/-- `CPU.__init__`: zeroed state, `pc = 0x200`, font copied into
`memory[0..79]` by the `for i in range(len(FONTSET))` loop. -/
def initCPU : CPU :=
  { opcode := 0
    memory := (List.range FONTSET.length).foldl
      (fun m i => m.set i (FONTSET.getD i 0)) (List.replicate 4096 0)
    registers := List.replicate 16 0
    I := 0
    pc := 0x200
    gfx := List.replicate (64 * 32) 0
    delay_timer := 0
    sound_timer := 0
    stack := List.replicate 16 0
    sp := 0
    key := List.replicate 16 0
    drawFlag := false }

/-- The loop body of `CPU.load_game`: `memory[pc + index] = data` for each
rom byte. -/
def loadBytes (base : Nat) : Nat → List Nat → List Nat → Option (List Nat)
  | _, mem, [] => some mem
  | idx, mem, d :: rest => do
      let mem' ← byteSet mem (base + idx) d
      loadBytes base (idx + 1) mem' rest

/-- `CPU.load_game` (with the file already read into a byte list). -/
def load_game (s : CPU) (rom : List Nat) : Option CPU := do
  let mem ← loadBytes s.pc 0 s.memory rom
  pure { s with memory := mem }

/-- `CPU.clear_display` (opcode 00E0). -/
def clear_display (s : CPU) : Option CPU :=
  some { s with gfx := List.replicate (64 * 32) 0, drawFlag := true }

/-- `CPU.return_from_subroutine` (opcode 00EE): `pc = stack[sp]; sp -= 1`. -/
def return_from_subroutine (s : CPU) : Option CPU := do
  let top ← pyGet s.stack s.sp
  pure { s with pc := top, sp := s.sp - 1 }

/-- `CPU.execute_zero`: second-level dispatch for the 0x0 family. -/
def execute_zero (s : CPU) : Option CPU :=
  let operation := s.opcode &&& 0x00FF
  if operation = 0xE0 then clear_display s
  else if operation = 0xEE then return_from_subroutine s
  else some s

/-- `CPU.jump_to_addr` (opcode 1nnn). -/
def jump_to_addr (s : CPU) : Option CPU :=
  some { s with pc := s.opcode &&& 0x0FFF }

/-- `CPU.call_addr` (opcode 2nnn): `sp += 1; stack[sp] = pc; pc = nnn`. -/
def call_addr (s : CPU) : Option CPU := do
  let sp' := s.sp + 1
  let st ← pySet s.stack sp' s.pc
  pure { s with sp := sp', stack := st, pc := s.opcode &&& 0x0FFF }

/-- `CPU.skip_next_instruction_if_registers_and_val_equal` (opcode 3xkk). -/
def skip_next_instruction_if_registers_and_val_equal (s : CPU) : Option CPU := do
  let Vx := (s.opcode &&& 0x0F00) >>> 8
  let kk := s.opcode &&& 0x00FF
  let rx ← byteGet s.registers Vx
  pure (if rx = kk then { s with pc := s.pc + 2 } else s)

/-- `CPU.skip_next_instruction_if_registers_and_val_not_equal` (opcode 4xkk). -/
def skip_next_instruction_if_registers_and_val_not_equal (s : CPU) : Option CPU := do
  let Vx := (s.opcode &&& 0x0F00) >>> 8
  let kk := s.opcode &&& 0x00FF
  let rx ← byteGet s.registers Vx
  pure (if rx ≠ kk then { s with pc := s.pc + 2 } else s)

/-- `CPU.skip_next_instruction_if_registers_equal` (opcode 5xy0). -/
def skip_next_instruction_if_registers_equal (s : CPU) : Option CPU := do
  let Vx := (s.opcode &&& 0x0F00) >>> 8
  let Vy := (s.opcode &&& 0x00F0) >>> 4
  let rx ← byteGet s.registers Vx
  let ry ← byteGet s.registers Vy
  pure (if rx = ry then { s with pc := s.pc + 2 } else s)

/-- `CPU.set_register_value` (opcode 6xkk). -/
def set_register_value (s : CPU) : Option CPU := do
  let Vx := (s.opcode &&& 0x0F00) >>> 8
  let kk := s.opcode &&& 0x00FF
  let regs ← byteSet s.registers Vx kk
  pure { s with registers := regs }

/-- `CPU.add_register_value` (opcode 7xkk). -/
def add_register_value (s : CPU) : Option CPU := do
  let Vx := (s.opcode &&& 0x0F00) >>> 8
  let kk := s.opcode &&& 0x00FF
  let rx ← byteGet s.registers Vx
  let regs ← byteSet s.registers Vx ((rx + kk) &&& 0xFF)
  pure { s with registers := regs }

/-- `CPU.set_register_to_register` (opcode 8xy0). -/
def set_register_to_register (s : CPU) : Option CPU := do
  let Vx := (s.opcode &&& 0x0F00) >>> 8
  let Vy := (s.opcode &&& 0x00F0) >>> 4
  let ry ← byteGet s.registers Vy
  let regs ← byteSet s.registers Vx ry
  pure { s with registers := regs }

/-- `CPU.or_registers` (opcode 8xy1). -/
def or_registers (s : CPU) : Option CPU := do
  let Vx := (s.opcode &&& 0x0F00) >>> 8
  let Vy := (s.opcode &&& 0x00F0) >>> 4
  let rx ← byteGet s.registers Vx
  let ry ← byteGet s.registers Vy
  let regs ← byteSet s.registers Vx (rx ||| ry)
  pure { s with registers := regs }

/-- `CPU.and_registers` (opcode 8xy2). -/
def and_registers (s : CPU) : Option CPU := do
  let Vx := (s.opcode &&& 0x0F00) >>> 8
  let Vy := (s.opcode &&& 0x00F0) >>> 4
  let rx ← byteGet s.registers Vx
  let ry ← byteGet s.registers Vy
  let regs ← byteSet s.registers Vx (rx &&& ry)
  pure { s with registers := regs }

/-- `CPU.xor_registers` (opcode 8xy3). -/
def xor_registers (s : CPU) : Option CPU := do
  let Vx := (s.opcode &&& 0x0F00) >>> 8
  let Vy := (s.opcode &&& 0x00F0) >>> 4
  let rx ← byteGet s.registers Vx
  let ry ← byteGet s.registers Vy
  let regs ← byteSet s.registers Vx (rx ^^^ ry)
  pure { s with registers := regs }

/-- `CPU.add_registers` (opcode 8xy4).  Note the source re-reads
`registers[Vx]` and `registers[Vy]` for the stored sum *after* having
written the carry flag into `registers[0xF]`. -/
def add_registers (s : CPU) : Option CPU := do
  let Vx := (s.opcode &&& 0x0F00) >>> 8
  let Vy := (s.opcode &&& 0x00F0) >>> 4
  let rx ← byteGet s.registers Vx
  let ry ← byteGet s.registers Vy
  let regs ← byteSet s.registers 0xF (if 255 < rx + ry then 1 else 0)
  let s := { s with registers := regs }
  let rx' ← byteGet s.registers Vx
  let ry' ← byteGet s.registers Vy
  let regs' ← byteSet s.registers Vx ((rx' + ry') &&& 0xFF)
  pure { s with registers := regs' }

/-- `CPU.sub_registers` (opcode 8xy5); same flag-first write order as
`add_registers`. -/
def sub_registers (s : CPU) : Option CPU := do
  let Vx := (s.opcode &&& 0x0F00) >>> 8
  let Vy := (s.opcode &&& 0x00F0) >>> 4
  let rx ← byteGet s.registers Vx
  let ry ← byteGet s.registers Vy
  let regs ← byteSet s.registers 0xF (if ry < rx then 1 else 0)
  let s := { s with registers := regs }
  let rx' ← byteGet s.registers Vx
  let ry' ← byteGet s.registers Vy
  let regs' ← byteSet s.registers Vx (pyAnd255 ((rx' : Int) - (ry' : Int)))
  pure { s with registers := regs' }

/-- `CPU.shift_right` (opcode 8xy6); the stored result re-reads
`registers[Vx]` after the flag write. -/
def shift_right (s : CPU) : Option CPU := do
  let Vx := (s.opcode &&& 0x0F00) >>> 8
  let rx ← byteGet s.registers Vx
  let regs ← byteSet s.registers 0xF (rx &&& 0x1)
  let s := { s with registers := regs }
  let rx' ← byteGet s.registers Vx
  let regs' ← byteSet s.registers Vx ((rx' >>> 1) &&& 0xFF)
  pure { s with registers := regs' }

/-- `CPU.subn_registers` (opcode 8xy7).  The source stores
`(registers[Vx] - registers[Vy]) & 0xFF` (the same direction as 8xy5),
with the complemented borrow flag. -/
def subn_registers (s : CPU) : Option CPU := do
  let Vx := (s.opcode &&& 0x0F00) >>> 8
  let Vy := (s.opcode &&& 0x00F0) >>> 4
  let rx ← byteGet s.registers Vx
  let ry ← byteGet s.registers Vy
  let regs ← byteSet s.registers 0xF (if rx < ry then 0 else 1)
  let s := { s with registers := regs }
  let rx' ← byteGet s.registers Vx
  let ry' ← byteGet s.registers Vy
  let regs' ← byteSet s.registers Vx (pyAnd255 ((rx' : Int) - (ry' : Int)))
  pure { s with registers := regs' }

/-- `CPU.shift_left` (opcode 8xyE); the stored result re-reads
`registers[Vx]` after the flag write. -/
def shift_left (s : CPU) : Option CPU := do
  let Vx := (s.opcode &&& 0x0F00) >>> 8
  let rx ← byteGet s.registers Vx
  let regs ← byteSet s.registers 0xF ((rx &&& 0x80) >>> 7)
  let s := { s with registers := regs }
  let rx' ← byteGet s.registers Vx
  let regs' ← byteSet s.registers Vx ((rx' <<< 1) &&& 0xFF)
  pure { s with registers := regs' }

/-- `CPU.not_implemented`: logging only, no state change. -/
def not_implemented (s : CPU) : Option CPU :=
  some s

/-- `CPU.execute_logic_operations`: second-level dispatch for the 0x8 family
(the `logic_operations_table` dict). -/
def execute_logic_operations (s : CPU) : Option CPU :=
  let operation := s.opcode &&& 0x000F
  if operation = 0x0 then set_register_to_register s
  else if operation = 0x1 then or_registers s
  else if operation = 0x2 then and_registers s
  else if operation = 0x3 then xor_registers s
  else if operation = 0x4 then add_registers s
  else if operation = 0x5 then sub_registers s
  else if operation = 0x6 then shift_right s
  else if operation = 0x7 then subn_registers s
  else if operation = 0xE then shift_left s
  else not_implemented s

/-- `CPU.skip_if_registers_neq` (opcode 9xy0). -/
def skip_if_registers_neq (s : CPU) : Option CPU := do
  let Vx := (s.opcode &&& 0x0F00) >>> 8
  let Vy := (s.opcode &&& 0x00F0) >>> 4
  let rx ← byteGet s.registers Vx
  let ry ← byteGet s.registers Vy
  pure (if rx ≠ ry then { s with pc := s.pc + 2 } else s)

/-- `CPU.load_index_reg_with_value` (opcode Annn). -/
def load_index_reg_with_value (s : CPU) : Option CPU :=
  some { s with I := s.opcode &&& 0x0FFF }

/-- `CPU.jump_to_addr_plus_v0` (opcode Bnnn). -/
def jump_to_addr_plus_v0 (s : CPU) : Option CPU := do
  let nnn := s.opcode &&& 0x0FFF
  let r0 ← byteGet s.registers 0
  pure { s with pc := r0 + nnn }

/-- `CPU.set_random_register_and_kk` (opcode Cxkk); the draw of
`random.randint(0, 255)` is supplied as the `rand` argument, reduced to
the `0..255` range the Python call produces. -/
def set_random_register_and_kk (s : CPU) (rand : Nat) : Option CPU := do
  let Vx := (s.opcode &&& 0x0F00) >>> 8
  let kk := s.opcode &&& 0x00FF
  let result := (rand % 256) &&& kk
  let regs ← byteSet s.registers Vx (result &&& 0xFF)
  pure { s with registers := regs }

/-- Inner `for xline in range(8)` loop of `CPU.draw_sprite`, processing the
columns from `xline` with `rem` columns remaining.  The register values
are re-read from the current state at every access, as the source does
(the collision write to `registers[0xF]` happens between the two index
computations). -/
def drawCols (Vx Vy yline sprite : Nat) : Nat → Nat → CPU → Option CPU
  | _, 0, s => some s
  | xline, rem + 1, s => do
      let s' ←
        if sprite &&& (0x80 >>> xline) ≠ 0 then do
          let ry ← byteGet s.registers Vy
          let rx ← byteGet s.registers Vx
          let p ← byteGet s.gfx ((ry + yline) * 64 + (rx + xline))
          let s ←
            if p = 1 then do
              let regs ← byteSet s.registers 0xF 1
              pure { s with registers := regs }
            else pure s
          let ry' ← byteGet s.registers Vy
          let rx' ← byteGet s.registers Vx
          let q ← byteGet s.gfx ((ry' + yline) * 64 + (rx' + xline))
          let g ← byteSet s.gfx ((ry' + yline) * 64 + (rx' + xline)) (q ^^^ 1)
          pure { s with gfx := g }
        else pure s
      drawCols Vx Vy yline sprite (xline + 1) rem s'

/-- Outer `for yline in range(n)` loop of `CPU.draw_sprite`. -/
def drawRows (Vx Vy : Nat) : Nat → Nat → CPU → Option CPU
  | _, 0, s => some s
  | yline, rem + 1, s => do
      let sprite ← byteGet s.memory (s.I + yline)
      let s' ← drawCols Vx Vy yline sprite 0 8 s
      drawRows Vx Vy (yline + 1) rem s'

/-- `CPU.draw_sprite` (opcode Dxyn). -/
def draw_sprite (s : CPU) : Option CPU := do
  let Vx := (s.opcode &&& 0x0F00) >>> 8
  let Vy := (s.opcode &&& 0x00F0) >>> 4
  let n := s.opcode &&& 0x000F
  let regs ← byteSet s.registers 0xF 0
  let s ← drawRows Vx Vy 0 n { s with registers := regs }
  pure { s with drawFlag := true }

/-- `CPU.set_vx_to_delay_timer` (opcode Fx07). -/
def set_vx_to_delay_timer (s : CPU) : Option CPU := do
  let Vx := (s.opcode &&& 0x0F00) >>> 8
  let regs ← byteSet s.registers Vx s.delay_timer
  pure { s with registers := regs }

/-- `CPU.wait_for_keypress` (opcode Fx0A): delegates to `not_implemented`. -/
def wait_for_keypress (s : CPU) : Option CPU :=
  not_implemented s

/-- `CPU.set_delay_timer_to_register` (opcode Fx15). -/
def set_delay_timer_to_register (s : CPU) : Option CPU := do
  let Vx := (s.opcode &&& 0x0F00) >>> 8
  let rx ← byteGet s.registers Vx
  pure { s with delay_timer := rx }

/-- `CPU.set_sound_timer_to_register` (opcode Fx18). -/
def set_sound_timer_to_register (s : CPU) : Option CPU := do
  let Vx := (s.opcode &&& 0x0F00) >>> 8
  let rx ← byteGet s.registers Vx
  pure { s with sound_timer := rx }

/-- `CPU.add_register_to_index` (opcode Fx1E): `I += registers[Vx]`, with no
masking of `I`. -/
def add_register_to_index (s : CPU) : Option CPU := do
  let Vx := (s.opcode &&& 0x0F00) >>> 8
  let rx ← byteGet s.registers Vx
  pure { s with I := s.I + rx }

/-- `CPU.set_i_to_sprite_address` (opcode Fx29): `I = registers[Vx] * 5`. -/
def set_i_to_sprite_address (s : CPU) : Option CPU := do
  let Vx := (s.opcode &&& 0x0F00) >>> 8
  let rx ← byteGet s.registers Vx
  pure { s with I := rx * 5 }

/-- `CPU.set_bcd_of_register` (opcode Fx33). -/
def set_bcd_of_register (s : CPU) : Option CPU := do
  let Vx := (s.opcode &&& 0x0F00) >>> 8
  let value ← byteGet s.registers Vx
  let m1 ← byteSet s.memory s.I (value / 100)
  let m2 ← byteSet m1 (s.I + 1) ((value / 10) % 10)
  let m3 ← byteSet m2 (s.I + 2) (value % 10)
  pure { s with memory := m3 }

/-- Loop of `CPU.store_registers`: `memory[I + i] = registers[i]` for
`i` in `range(Vx + 1)`. -/
def storeRegsLoop (iVal : Nat) (regs : List Nat) : Nat → Nat → List Nat → Option (List Nat)
  | _, 0, mem => some mem
  | i, rem + 1, mem => do
      let r ← byteGet regs i
      let mem' ← byteSet mem (iVal + i) r
      storeRegsLoop iVal regs (i + 1) rem mem'

/-- `CPU.store_registers` (opcode Fx55). -/
def store_registers (s : CPU) : Option CPU := do
  let Vx := (s.opcode &&& 0x0F00) >>> 8
  let mem ← storeRegsLoop s.I s.registers 0 (Vx + 1) s.memory
  pure { s with memory := mem }

/-- Loop of `CPU.load_registers`: `registers[i] = memory[I + i]` for
`i` in `range(Vx + 1)`. -/
def loadRegsLoop (iVal : Nat) (mem : List Nat) : Nat → Nat → List Nat → Option (List Nat)
  | _, 0, regs => some regs
  | i, rem + 1, regs => do
      let m ← byteGet mem (iVal + i)
      let regs' ← byteSet regs i m
      loadRegsLoop iVal mem (i + 1) rem regs'

/-- `CPU.load_registers` (opcode Fx65). -/
def load_registers (s : CPU) : Option CPU := do
  let Vx := (s.opcode &&& 0x0F00) >>> 8
  let regs ← loadRegsLoop s.I s.memory 0 (Vx + 1) s.registers
  pure { s with registers := regs }

/-- `CPU.execute_misc`: second-level dispatch for the 0xF family (the
`misc_table` dict). -/
def execute_misc (s : CPU) : Option CPU :=
  let operation := s.opcode &&& 0x00FF
  if operation = 0x07 then set_vx_to_delay_timer s
  else if operation = 0x0A then wait_for_keypress s
  else if operation = 0x15 then set_delay_timer_to_register s
  else if operation = 0x18 then set_sound_timer_to_register s
  else if operation = 0x1E then add_register_to_index s
  else if operation = 0x29 then set_i_to_sprite_address s
  else if operation = 0x33 then set_bcd_of_register s
  else if operation = 0x55 then store_registers s
  else if operation = 0x65 then load_registers s
  else not_implemented s

/-- `CPU.execute_instruction`: advance `pc` by 2, then dispatch on the high
nibble through the `operations_table` dict. -/
def execute_instruction (s : CPU) (rand : Nat) : Option CPU :=
  let operation := (s.opcode &&& 0xF000) >>> 12
  let s := { s with pc := s.pc + 2 }
  if operation = 0x0 then execute_zero s
  else if operation = 0x1 then jump_to_addr s
  else if operation = 0x2 then call_addr s
  else if operation = 0x3 then skip_next_instruction_if_registers_and_val_equal s
  else if operation = 0x4 then skip_next_instruction_if_registers_and_val_not_equal s
  else if operation = 0x5 then skip_next_instruction_if_registers_equal s
  else if operation = 0x6 then set_register_value s
  else if operation = 0x7 then add_register_value s
  else if operation = 0x8 then execute_logic_operations s
  else if operation = 0x9 then skip_if_registers_neq s
  else if operation = 0xA then load_index_reg_with_value s
  else if operation = 0xB then jump_to_addr_plus_v0 s
  else if operation = 0xC then set_random_register_and_kk s rand
  else if operation = 0xD then draw_sprite s
  else if operation = 0xE then not_implemented s
  else if operation = 0xF then execute_misc s
  else some s

/-- Timer phase at the end of `CPU.cycle`; the returned `Bool` is the
`print("BEEP")` side effect, emitted exactly when the sound timer is 1
immediately before its decrement. -/
def timer_tick (s : CPU) : CPU × Bool :=
  let s := if 0 < s.delay_timer then { s with delay_timer := s.delay_timer - 1 } else s
  if 0 < s.sound_timer then
    ({ s with sound_timer := s.sound_timer - 1 }, s.sound_timer == 1)
  else (s, false)

/-- `CPU.cycle`: fetch the big-endian instruction word at `pc`, execute it,
then tick the timers. -/
def cycle (s : CPU) (rand : Nat) : Option (CPU × Bool) := do
  let b1 ← byteGet s.memory s.pc
  let b2 ← byteGet s.memory (s.pc + 1)
  let s' ← execute_instruction { s with opcode := (b1 <<< 8) ||| b2 } rand
  pure (timer_tick s')

/-- Iterated `cycle` (the `while True` loop of `emulator.py`), with the
random draw fixed to 0 for programs that never execute opcode Cxkk. -/
def run (s : CPU) : Nat → Option CPU
  | 0 => some s
  | n + 1 => do
      let r ← cycle s 0
      run r.1 n

/-- The instruction words that `cpu.py` treats as logged no-ops: the whole
0xE family (`not_implemented` in `operations_table`), a 0x0-family low
byte other than `0xE0`/`0xEE`, a 0x8-family low nibble absent from
`logic_operations_table`, and a 0xF-family low byte that is either absent
from `misc_table` or is the unimplemented key-wait `0x0A`. -/
def unrecognizedOp (op : Nat) : Bool :=
  let fam := (op &&& 0xF000) >>> 12
  let lowByte := op &&& 0x00FF
  let lowNib := op &&& 0x000F
  (fam == 0x0 && lowByte != 0xE0 && lowByte != 0xEE) ||
  (fam == 0x8 && lowNib != 0x0 && lowNib != 0x1 && lowNib != 0x2 && lowNib != 0x3 &&
    lowNib != 0x4 && lowNib != 0x5 && lowNib != 0x6 && lowNib != 0x7 && lowNib != 0xE) ||
  (fam == 0xE) ||
  (fam == 0xF && (lowByte == 0x0A ||
    (lowByte != 0x07 && lowByte != 0x0A && lowByte != 0x15 && lowByte != 0x18 &&
     lowByte != 0x1E && lowByte != 0x29 && lowByte != 0x33 && lowByte != 0x55 &&
     lowByte != 0x65)))

/-- Structural bounds that hold in every state the machine can reach:
container sizes are fixed; registers, memory cells, gfx cells and timers
are bytes; `pc` and every stack slot fit in 16 bits.  The index register
`I` is deliberately absent: the code never masks it. -/
structure Inv (s : CPU) : Prop where
  regs_len : s.registers.length = 16
  mem_len : s.memory.length = 4096
  gfx_len : s.gfx.length = 2048
  stack_len : s.stack.length = 16
  regs_lt : ∀ v ∈ s.registers, v < 256
  mem_lt : ∀ v ∈ s.memory, v < 256
  gfx_lt : ∀ v ∈ s.gfx, v < 256
  pc_lt : s.pc < 65536
  stack_lt : ∀ v ∈ s.stack, v < 65536
  delay_lt : s.delay_timer < 256
  sound_lt : s.sound_timer < 256

/-- States reachable in the lifecycle of `emulator.py`: construct the CPU,
load some program image at `0x200`, then run any number of successful
cycles. -/
inductive Reachable : CPU → Prop where
  | load (rom : List Nat) (s : CPU) : load_game initCPU rom = some s → Reachable s
  | step (s s' : CPU) (rand : Nat) (b : Bool) :
      Reachable s → cycle s rand = some (s', b) → Reachable s'

/-- V0=200, V1=100, opcode 0x8014 (add V1 into V0). -/
def w4 : CPU :=
  { initCPU with registers := ((List.replicate 16 0).set 0 200).set 1 100, opcode := 0x8014 }

/-- V0=200, VF=100, opcode 0x80F4 (add VF into V0): the flag write lands
before the operand re-read. -/
def cx4 : CPU :=
  { initCPU with registers := ((List.replicate 16 0).set 0 200).set 15 100, opcode := 0x80F4 }

/-- V0=100, V1=200, opcode 0x8015 (subtract V1 from V0). -/
def w5 : CPU :=
  { initCPU with registers := ((List.replicate 16 0).set 0 100).set 1 200, opcode := 0x8015 }

/-- V0=100, VF=200, opcode 0x80F5 (subtract VF from V0). -/
def cx5 : CPU :=
  { initCPU with registers := ((List.replicate 16 0).set 0 100).set 15 200, opcode := 0x80F5 }

/-- VF=200, V1=100, opcode 0x8F14 (add with destination VF). -/
def w10 : CPU :=
  { initCPU with registers := ((List.replicate 16 0).set 15 200).set 1 100, opcode := 0x8F14 }

/-- VF=0xFF, opcode 0x8F06 (shift-right with destination VF). -/
def cx10 : CPU :=
  { initCPU with registers := (List.replicate 16 0).set 15 0xFF, opcode := 0x8F06 }

/-- V0=7, opcode 0xF029 (font address for V0). -/
def w9 : CPU :=
  { initCPU with registers := (List.replicate 16 0).set 0 7, opcode := 0xF029 }

/-- V0=16, opcode 0xF029: a register value with a non-zero high nibble. -/
def cx9 : CPU :=
  { initCPU with registers := (List.replicate 16 0).set 0 16, opcode := 0xF029 }

/-- Empty stack (`sp = 0`), opcode 0x2300, `pc` already advanced to 0x202. -/
def w6 : CPU := { initCPU with opcode := 0x2300, pc := 0x202 }

/-- The state `call_addr` produces from `w6`. -/
def w6after : CPU :=
  { initCPU with opcode := 0x2300, pc := 0x300, sp := 1, stack := (List.replicate 16 0).set 1 0x202 }

/-- Stack pointer 15 (15 return addresses pushed), opcode 0x2300. -/
def cx6 : CPU := { initCPU with sp := 15, opcode := 0x2300 }

/-- Stack pointer 15, nothing else unusual. -/
def cs2a : CPU := { initCPU with sp := 15 }

/-- Stack pointer 15 with the instruction 0x2300 placed at `pc = 0x200`. -/
def cx2 : CPU := { initCPU with memory := initCPU.memory.set 0x200 0x23, sp := 15 }

/-- V0=62, V1=31, opcode 0xD011: one sprite row drawn at the bottom-right
corner, whose unwrapped framebuffer index reaches 2048. -/
def cx2draw : CPU :=
  { initCPU with registers := ((List.replicate 16 0).set 0 62).set 1 31, opcode := 0xD011 }

/-- Opcode 0xE09E: the whole 0xE family is unimplemented. -/
def cw8 : CPU := { initCPU with opcode := 0xE09E }

/-- Sound timer 1 at the start of a cycle. -/
def w7 : CPU := { initCPU with sound_timer := 1 }

/-- The state one cycle after `w7`: opcode 0x0000 fetched, `pc` advanced,
sound timer decremented to 0. -/
def w7after : CPU := { initCPU with pc := 0x202 }

/-- V0=62, V1=0, I=0 (`memory[0] = 0xF0`, the first font byte), opcode
0xD011: the four set sprite bits target columns 62..65 of row 0. -/
def cx1a : CPU :=
  { initCPU with registers := (List.replicate 16 0).set 0 62, opcode := 0xD011 }

/-- Like `cx1a` but at row V1=31, so the unwrapped index reaches 2048. -/
def cx1b : CPU :=
  { initCPU with registers := ((List.replicate 16 0).set 0 62).set 1 31, opcode := 0xD011 }

/-- `n` copies of the instruction `F0 1E` (I += V0) as a byte list. -/
def romTail : Nat → List Nat
  | 0 => []
  | n + 1 => 0xF0 :: 0x1E :: romTail n

/-- A program image: `6, 0xFF` (V0 := 0xFF), `A, 0xFFF` (I := 0xFFF), then
258 copies of `F0 1E` (I += V0). -/
def romFx1E : List Nat := [0x60, 0xFF, 0xAF, 0xFF] ++ romTail 258

/-- The machine with `romFx1E` loaded at 0x200. -/
def s0Fx1E : CPU := (load_game initCPU romFx1E).getD initCPU

/-- The machine after running all 260 instructions of `romFx1E`. -/
def badC3 : CPU := (run s0Fx1E 260).getD initCPU

theorem byteGet_lt_length {a : List Nat} {i v : Nat} (h : byteGet a i = some v) :
    i < a.length := (List.getElem?_eq_some.mp h).1

theorem byteGet_mem {a : List Nat} {i v : Nat} (h : byteGet a i = some v) : v ∈ a := by
  obtain ⟨hl, rfl⟩ := List.getElem?_eq_some.mp h
  exact List.getElem_mem hl

theorem byteGet_total {a : List Nat} {i : Nat} (h : i < a.length) :
    byteGet a i = some (a.getD i 0) := by
  unfold byteGet
  rw [List.getElem?_eq_getElem h, List.getD_eq_getElem a 0 h]

theorem byteSet_some {a : List Nat} {i v : Nat} (hi : i < a.length) (hv : v < 256) :
    byteSet a i v = some (a.set i v) := by
  simp [byteSet, hi, hv]

theorem byteSet_eq_some {a a' : List Nat} {i v : Nat} (h : byteSet a i v = some a') :
    i < a.length ∧ v < 256 ∧ a' = a.set i v := by
  by_cases hc : i < a.length ∧ v < 256
  · rw [byteSet, if_pos hc] at h
    exact ⟨hc.1, hc.2, (Option.some.injEq _ _ ▸ h).symm⟩
  · rw [byteSet, if_neg hc] at h
    cases h

theorem byteGet_set_same {a : List Nat} {i : Nat} (v : Nat) (hi : i < a.length) :
    byteGet (a.set i v) i = some v := List.getElem?_set_eq_of_lt v hi

theorem byteGet_set_ne {a : List Nat} {i j : Nat} (v : Nat) (hij : i ≠ j) :
    byteGet (a.set i v) j = byteGet a j := List.getElem?_set_ne hij

theorem mem_set_lt {a : List Nat} {i v n : Nat} (hb : ∀ w ∈ a, w < n) (hv : v < n) :
    ∀ w ∈ a.set i v, w < n := fun w hw =>
  (List.mem_or_eq_of_mem_set hw).elim (hb w) (fun e => e ▸ hv)

theorem pyGet_nonneg {l : List Nat} {i : Int} (h0 : 0 ≤ i) (hl : i < (l.length : Int)) :
    pyGet l i = l[i.toNat]? := by
  simp [pyGet, h0, hl]

theorem pyGet_mem {l : List Nat} {i : Int} {v : Nat} (h : pyGet l i = some v) : v ∈ l := by
  unfold pyGet at h
  split at h
  · obtain ⟨hl, rfl⟩ := List.getElem?_eq_some.mp h
    exact List.getElem_mem hl
  · split at h
    · obtain ⟨hl, rfl⟩ := List.getElem?_eq_some.mp h
      exact List.getElem_mem hl
    · cases h

theorem pySet_nonneg {l : List Nat} {i : Int} (v : Nat) (h0 : 0 ≤ i)
    (hl : i < (l.length : Int)) : pySet l i v = some (l.set i.toNat v) := by
  simp [pySet, h0, hl]

theorem pySet_eq_set {l l' : List Nat} {i : Int} {v : Nat} (h : pySet l i v = some l') :
    ∃ k, l' = l.set k v := by
  unfold pySet at h
  split at h
  · exact ⟨i.toNat, (Option.some.injEq _ _ ▸ h).symm⟩
  · split at h
    · exact ⟨((l.length : Int) + i).toNat, (Option.some.injEq _ _ ▸ h).symm⟩
    · cases h

theorem and255_eq_mod (n : Nat) : n &&& 255 = n % 256 := by
  have := Nat.and_pow_two_sub_one_eq_mod n 8
  simpa using this

theorem and255_lt (n : Nat) : n &&& 255 < 256 :=
  Nat.lt_succ_of_le Nat.and_le_right

theorem and15_eq_mod (n : Nat) : n &&& 15 = n % 16 := by
  have := Nat.and_pow_two_sub_one_eq_mod n 4
  simpa using this

theorem pyAnd255_lt (x : Int) : pyAnd255 x < 256 := by
  unfold pyAnd255
  have h1 : x % 256 < 256 := Int.emod_lt_of_pos x (by norm_num)
  omega

theorem shiftRight_le (n k : Nat) : n >>> k ≤ n := by
  rw [Nat.shiftRight_eq_div_pow]
  exact Nat.div_le_self n (2 ^ k)

theorem foldl_set_length (f : Nat → Nat) (n : Nat) (l : List Nat) :
    ((List.range n).foldl (fun m i => m.set i (f i)) l).length = l.length := by
  induction n with
  | zero => rfl
  | succ k ih =>
    rw [List.range_succ, List.foldl_append]
    simp [ih]

theorem foldl_set_getElem (f : Nat → Nat) (n : Nat) (l : List Nat) (hn : n ≤ l.length)
    (j : Nat) :
    ((List.range n).foldl (fun m i => m.set i (f i)) l)[j]? =
      if j < n then some (f j) else l[j]? := by
  induction n with
  | zero => simp
  | succ k ih =>
    rw [List.range_succ, List.foldl_append]
    simp only [List.foldl_cons, List.foldl_nil]
    have ihk := ih (by omega)
    by_cases hjk : k = j
    · subst hjk
      have hklen : k < ((List.range k).foldl (fun m i => m.set i (f i)) l).length := by
        rw [foldl_set_length]; omega
      rw [List.getElem?_set_eq_of_lt _ hklen]
      simp [Nat.lt_succ_self]
    · rw [List.getElem?_set_ne hjk, ihk]
      by_cases hlt : j < k
      · simp [hlt, Nat.lt_succ_of_lt hlt]
      · have h2 : ¬ j < k + 1 := by omega
        simp [hlt, h2]

theorem FONTSET_length : FONTSET.length = 80 := by decide

theorem initCPU_memory_length : initCPU.memory.length = 4096 := by
  show ((List.range FONTSET.length).foldl
    (fun m i => m.set i (FONTSET.getD i 0)) (List.replicate 4096 0)).length = 4096
  rw [foldl_set_length, List.length_replicate]

theorem initCPU_memory_get (j : Nat) :
    byteGet initCPU.memory j =
      if j < 80 then some (FONTSET.getD j 0) else if j < 4096 then some 0 else none := by
  show ((List.range FONTSET.length).foldl
    (fun m i => m.set i (FONTSET.getD i 0)) (List.replicate 4096 0))[j]? = _
  rw [foldl_set_getElem _ _ _ (by rw [List.length_replicate, FONTSET_length]; omega) j,
    List.getElem?_replicate, FONTSET_length]

theorem FONTSET_getD_lt (j : Nat) : FONTSET.getD j 0 < 256 := by
  by_cases hj : j < FONTSET.length
  · rw [List.getD_eq_getElem _ _ hj]
    exact (by decide : ∀ w ∈ FONTSET, w < 256) _ (List.getElem_mem hj)
  · rw [List.getD_eq_default _ _ (by omega)]
    norm_num

theorem initCPU_memory_lt (v : Nat) (hv : v ∈ initCPU.memory) : v < 256 := by
  obtain ⟨j, hget⟩ := List.mem_iff_getElem?.mp hv
  have hc : initCPU.memory[j]? =
      (if j < 80 then some (FONTSET.getD j 0) else if j < 4096 then some 0 else none) :=
    initCPU_memory_get j
  rw [hget] at hc
  by_cases h1 : j < 80
  · rw [if_pos h1] at hc
    simp only [Option.some.injEq] at hc
    subst hc
    exact FONTSET_getD_lt j
  · rw [if_neg h1] at hc
    by_cases h2 : j < 4096
    · rw [if_pos h2] at hc
      simp only [Option.some.injEq] at hc
      subst hc
      norm_num
    · rw [if_neg h2] at hc
      cases hc

theorem drawCols_zero (Vx Vy yline sprite xline : Nat) (s : CPU) :
    drawCols Vx Vy yline sprite xline 0 s = some s := rfl

theorem drawCols_step_clear {sprite xline : Nat} (Vx Vy yline : Nat) {rem rem' : Nat}
    (s : CPU) (hrem : rem = rem' + 1)
    (h : sprite &&& (0x80 >>> xline) = 0) :
    drawCols Vx Vy yline sprite xline rem s =
      drawCols Vx Vy yline sprite (xline + 1) rem' s := by
  subst hrem
  simp [drawCols, h]

theorem drawCols_step_set {sprite xline : Nat} (Vx Vy yline : Nat) {rem rem' : Nat}
    (s : CPU) {ry rx p : Nat} {g : List Nat} (hrem : rem = rem' + 1)
    (h : sprite &&& (0x80 >>> xline) ≠ 0)
    (hry : byteGet s.registers Vy = some ry) (hrx : byteGet s.registers Vx = some rx)
    (hp : byteGet s.gfx ((ry + yline) * 64 + (rx + xline)) = some p) (hpne : p ≠ 1)
    (hg : byteSet s.gfx ((ry + yline) * 64 + (rx + xline)) (p ^^^ 1) = some g) :
    drawCols Vx Vy yline sprite xline rem s =
      drawCols Vx Vy yline sprite (xline + 1) rem' { s with gfx := g } := by
  subst hrem
  simp [drawCols, h, hry, hrx, hp, hpne, hg]

theorem drawCols_step_fail {sprite xline : Nat} (Vx Vy yline : Nat) {rem rem' : Nat}
    (s : CPU) {ry rx : Nat} (hrem : rem = rem' + 1)
    (h : sprite &&& (0x80 >>> xline) ≠ 0)
    (hry : byteGet s.registers Vy = some ry) (hrx : byteGet s.registers Vx = some rx)
    (hp : byteGet s.gfx ((ry + yline) * 64 + (rx + xline)) = none) :
    drawCols Vx Vy yline sprite xline rem s = none := by
  subst hrem
  simp [drawCols, h, hry, hrx, hp]

theorem drawRows_zero (Vx Vy yline : Nat) (s : CPU) :
    drawRows Vx Vy yline 0 s = some s := rfl

theorem drawRows_step {Vx Vy yline : Nat} {rem rem' : Nat} {s : CPU} {sprite : Nat}
    (hrem : rem = rem' + 1)
    (hsp : byteGet s.memory (s.I + yline) = some sprite) :
    drawRows Vx Vy yline rem s =
      (drawCols Vx Vy yline sprite 0 8 s).bind (drawRows Vx Vy (yline + 1) rem') := by
  subst hrem
  simp [drawRows, hsp]

theorem draw_sprite_eq (s : CPU) {regs : List Nat}
    (hset : byteSet s.registers 0xF 0 = some regs) :
    draw_sprite s = (drawRows ((s.opcode &&& 0x0F00) >>> 8) ((s.opcode &&& 0x00F0) >>> 4) 0
      (s.opcode &&& 0x000F) { s with registers := regs }).bind
      (fun t => some { t with drawFlag := true }) := by
  simp only [draw_sprite, Option.bind_eq_bind, Option.pure_def]
  rw [hset]
  simp only [Option.some_bind]

theorem timer_tick_zero {s : CPU} (hd : s.delay_timer = 0) (hs : s.sound_timer = 0) :
    timer_tick s = (s, false) := by
  simp [timer_tick, hd, hs]

theorem cycle_eq {s : CPU} (rand : Nat) {b1 b2 : Nat}
    (h1 : byteGet s.memory s.pc = some b1) (h2 : byteGet s.memory (s.pc + 1) = some b2) :
    cycle s rand =
      (execute_instruction { s with opcode := (b1 <<< 8) ||| b2 } rand).map timer_tick := by
  simp only [cycle, Option.bind_eq_bind, Option.pure_def]
  rw [h1]
  simp only [Option.some_bind]
  rw [h2]
  simp only [Option.some_bind]
  cases execute_instruction { s with opcode := (b1 <<< 8) ||| b2 } rand <;> rfl

theorem run_succ (s : CPU) {n m : Nat} (hn : n = m + 1) :
    run s n = (cycle s 0).bind (fun r => run r.1 m) := by
  subst hn
  rfl

theorem run_cons {s t : CPU} {b : Bool} {n m : Nat} (hn : n = m + 1)
    (hc : cycle s 0 = some (t, b)) : run s n = run t m := by
  rw [run_succ s hn, hc]
  rfl

theorem draw_row31_aborts (s : CPU) (hop : s.opcode = 0xD011)
    (hregs : s.registers = ((List.replicate 16 0).set 0 62).set 1 31)
    (hgfx : s.gfx = List.replicate 2048 0)
    (hmem : byteGet s.memory s.I = some 0xF0) :
    draw_sprite s = none := by
  have hset15 : byteSet s.registers 15 0 = some (s.registers.set 15 0) :=
    byteSet_some (by rw [hregs]; simp) (by norm_num)
  have hry : byteGet (s.registers.set 15 0) 1 = some 31 := by
    rw [hregs]; decide
  have hrx : byteGet (s.registers.set 15 0) 0 = some 62 := by
    rw [hregs]; decide
  have hp0 : ((List.replicate 2048 (0 : Nat)))[(31 + 0) * 64 + (62 + 0)]? = some 0 := by
    rw [List.getElem?_replicate]
    norm_num
  have hp1 : (((List.replicate 2048 (0 : Nat)).set 2046 1))[(31 + 0) * 64 + (62 + 1)]? = some 0 := by
    rw [List.getElem?_set_ne (by norm_num), List.getElem?_replicate]
    norm_num
  have hp2 : ((((List.replicate 2048 (0 : Nat)).set 2046 1).set 2047 1))[(31 + 0) * 64 + (62 + 2)]? = none := by
    rw [List.getElem?_set_ne (by norm_num), List.getElem?_set_ne (by norm_num),
      List.getElem?_replicate]
    norm_num
  have hg0 : byteSet (List.replicate 2048 (0 : Nat)) ((31 + 0) * 64 + (62 + 0)) (0 ^^^ 1) = some ((List.replicate 2048 (0 : Nat)).set 2046 1) := by
    show byteSet (List.replicate 2048 (0 : Nat)) 2046 1 = _
    exact byteSet_some (by rw [List.length_replicate]; omega) (by omega)
  have hg1 : byteSet ((List.replicate 2048 (0 : Nat)).set 2046 1) ((31 + 0) * 64 + (62 + 1)) (0 ^^^ 1) = some (((List.replicate 2048 (0 : Nat)).set 2046 1).set 2047 1) := by
    show byteSet _ 2047 1 = _
    exact byteSet_some (by rw [List.length_set, List.length_replicate]; omega) (by omega)
  have stepA : drawCols 0 1 0 0xF0 0 8 ({ s with registers := s.registers.set 15 0, gfx := List.replicate 2048 0 } : CPU) = drawCols 0 1 0 0xF0 1 7 ({ s with registers := s.registers.set 15 0, gfx := (List.replicate 2048 0).set 2046 1 } : CPU) :=
    drawCols_step_set 0 1 0 _ (by norm_num) (by decide) hry hrx hp0 (by norm_num) hg0
  have stepB : drawCols 0 1 0 0xF0 1 7 ({ s with registers := s.registers.set 15 0, gfx := (List.replicate 2048 0).set 2046 1 } : CPU) = drawCols 0 1 0 0xF0 2 6 ({ s with registers := s.registers.set 15 0, gfx := ((List.replicate 2048 0).set 2046 1).set 2047 1 } : CPU) :=
    drawCols_step_set 0 1 0 _ (by norm_num) (by decide) hry hrx hp1 (by norm_num) hg1
  have stepC : drawCols 0 1 0 0xF0 2 6 ({ s with registers := s.registers.set 15 0, gfx := ((List.replicate 2048 0).set 2046 1).set 2047 1 } : CPU) = none :=
    drawCols_step_fail 0 1 0 _ (by norm_num : (6 : Nat) = 5 + 1) (by decide) hry hrx hp2
  have hcols := (stepA.trans stepB).trans stepC
  have hrows : drawRows 0 1 0 1 ({ s with registers := s.registers.set 15 0, gfx := List.replicate 2048 0 } : CPU) = none := by
    rw [drawRows_step (by norm_num : (1 : Nat) = 0 + 1) (show byteGet ({ s with registers := s.registers.set 15 0, gfx := List.replicate 2048 0 } : CPU).memory (({ s with registers := s.registers.set 15 0, gfx := List.replicate 2048 0 } : CPU).I + 0) = some 0xF0 by rw [Nat.add_zero]; exact hmem), hcols]
    rfl
  have e1 : (s.opcode &&& 0x0F00) >>> 8 = 0 := by rw [hop]; decide
  have e2 : (s.opcode &&& 0x00F0) >>> 4 = 1 := by rw [hop]; decide
  have e3 : s.opcode &&& 0x000F = 1 := by rw [hop]; decide
  rw [draw_sprite_eq s hset15, e1, e2, e3]
  have hrec : ({ s with registers := s.registers.set 15 0 } : CPU) = { s with registers := s.registers.set 15 0, gfx := List.replicate 2048 0 } := by
    rw [← hgfx]
  rw [hrec, hrows]
  rfl

theorem exec_call_overflow (s : CPU) (hop : s.opcode = 0x2300) (hsp : s.sp = 15)
    (hlen : s.stack.length = 16) :
    execute_instruction s 0 = none := by
  have e0 : (s.opcode &&& 0xF000) >>> 12 = 2 := by rw [hop]; decide
  simp only [execute_instruction]
  rw [e0]
  norm_num
  simp only [call_addr, Option.bind_eq_bind]
  have hnone : pySet s.stack (s.sp + 1) (s.pc + 2) = none := by
    unfold pySet
    rw [hsp, hlen]
    norm_num
  rw [hnone]
  rfl

theorem exec_op60FF (s : CPU) (hop : s.opcode = 0x60FF) {regs : List Nat}
    (hset : byteSet s.registers 0 0xFF = some regs) :
    execute_instruction s 0 = some { s with pc := s.pc + 2, registers := regs } := by
  have e0 : (s.opcode &&& 0xF000) >>> 12 = 6 := by rw [hop]; decide
  have e1 : (s.opcode &&& 0x0F00) >>> 8 = 0 := by rw [hop]; decide
  have e2 : s.opcode &&& 0x00FF = 0xFF := by rw [hop]; decide
  simp only [execute_instruction]
  rw [e0]
  norm_num
  simp only [set_register_value, e1, e2, Option.bind_eq_bind, Option.pure_def]
  rw [hset]
  simp only [Option.some_bind]

theorem exec_opAFFF (s : CPU) (hop : s.opcode = 0xAFFF) :
    execute_instruction s 0 = some { s with pc := s.pc + 2, I := 0xFFF } := by
  have e0 : (s.opcode &&& 0xF000) >>> 12 = 0xA := by rw [hop]; decide
  have e1 : s.opcode &&& 0x0FFF = 0xFFF := by rw [hop]; decide
  simp only [execute_instruction]
  rw [e0]
  norm_num
  simp only [load_index_reg_with_value, e1]

theorem exec_opF01E (s : CPU) (hop : s.opcode = 0xF01E) {r0 : Nat}
    (hr : byteGet s.registers 0 = some r0) :
    execute_instruction s 0 = some { s with pc := s.pc + 2, I := s.I + r0 } := by
  have e0 : (s.opcode &&& 0xF000) >>> 12 = 0xF := by rw [hop]; decide
  have e1 : (s.opcode &&& 0x0F00) >>> 8 = 0 := by rw [hop]; decide
  have e2 : s.opcode &&& 0x00FF = 0x1E := by rw [hop]; decide
  simp only [execute_instruction]
  rw [e0]
  norm_num
  simp only [execute_misc, e2]
  norm_num
  simp only [add_register_to_index, e1, Option.bind_eq_bind, Option.pure_def]
  rw [hr]
  simp only [Option.some_bind]

theorem exec_op0000 (s : CPU) (hop : s.opcode = 0) :
    execute_instruction s 0 = some { s with pc := s.pc + 2 } := by
  have e0 : (s.opcode &&& 0xF000) >>> 12 = 0 := by rw [hop]; decide
  have e1 : s.opcode &&& 0x00FF = 0 := by rw [hop]; decide
  simp only [execute_instruction]
  rw [e0]
  norm_num
  simp only [execute_zero, e1]
  norm_num

/-- C4, amended: for the add opcode 0x8xy4 with `x ≠ 0xF` **and `y ≠ 0xF`**,
the stored value is `(Vx+Vy) mod 256` and the flag register becomes 1
exactly when `Vx+Vy` exceeds 255 before masking.  (When `y = 0xF` the
source re-reads `Vy` after the flag write, so the stated sum is wrong;
see the counterexample.) -/
theorem C4_add_carry_and_mask (s : CPU) (x y a b : Nat)
    (hlen : s.registers.length = 16)
    (hx : (s.opcode &&& 0x0F00) >>> 8 = x) (hy : (s.opcode &&& 0x00F0) >>> 4 = y)
    (hxF : x ≠ 0xF) (hyF : y ≠ 0xF)
    (ha : byteGet s.registers x = some a) (hb : byteGet s.registers y = some b) :
    ∃ s', add_registers s = some s' ∧
      byteGet s'.registers x = some ((a + b) % 256) ∧
      byteGet s'.registers 15 = some (if 255 < a + b then 1 else 0) := by
  have hx16 : x < s.registers.length := byteGet_lt_length ha
  have h15 : (15 : Nat) < s.registers.length := by omega
  have hflag : (if 255 < a + b then 1 else 0) < 256 := by split <;> omega
  have hset1 := byteSet_some h15 hflag
  have hx16' : x < (s.registers.set 15 (if 255 < a + b then 1 else 0)).length := by
    simpa using hx16
  have hres : ((a + b) &&& 0xFF) < 256 := and255_lt _
  have hset2 := byteSet_some hx16' hres
  refine ⟨{ s with registers := (s.registers.set 15 (if 255 < a + b then 1 else 0)).set x ((a + b) &&& 0xFF) }, ?_, ?_, ?_⟩
  · simp only [add_registers, hx, hy, ha, hb, Option.bind_eq_bind, Option.some_bind,
      Option.pure_def]
    rw [hset1]
    simp only [Option.some_bind]
    rw [byteGet_set_ne _ (by omega : (15 : Nat) ≠ x), ha,
        byteGet_set_ne _ (by omega : (15 : Nat) ≠ y), hb]
    simp only [Option.some_bind]
    rw [hset2]
    simp only [Option.some_bind]
  · rw [byteGet_set_same _ hx16', and255_eq_mod]
  · rw [byteGet_set_ne _ (by omega : x ≠ 15)]
    exact byteGet_set_same _ h15

/-- C4 witness: V0=200, V1=100, opcode 0x8014 gives V0=44 and VF=1. -/
theorem C4_witness :
    ∃ s', add_registers w4 = some s' ∧
      byteGet s'.registers 0 = some ((200 + 100) % 256) ∧
      byteGet s'.registers 15 = some (if 255 < 200 + 100 then 1 else 0) :=
  C4_add_carry_and_mask w4 0 1 200 100 (by decide) (by decide) (by decide)
    (by decide) (by decide) (by decide) (by decide)

/-- C4 counterexample: with V0=200, VF=100 and opcode 0x80F4 (so `x = 0 ≠
0xF`, `y = 0xF`), the code leaves V0 = 201 — the sum of 200 with the
freshly written carry flag — not `(200+100) mod 256 = 44` as the claim
requires for every `y`. -/
theorem C4_counterexample :
    ((add_registers cx4).bind fun t => byteGet t.registers 0) = some 201 ∧
    (201 : Nat) ≠ (200 + 100) % 256 := by decide

/-- C5, amended: for opcode 0x8xy5 with `x ≠ 0xF` **and `y ≠ 0xF`** the
stored value is `(Vx−Vy) mod 256` and the flag is 1 exactly when
`Vx > Vy`; for opcode 0x8xy7 the flag is 1 exactly when `Vx ≥ Vy`, the
complement convention.  (When `y = 0xF` the source re-reads `Vy` after
the flag write, so the stated difference is wrong; the flag parts hold
for every `y`.) -/
theorem C5_sub_flags (s : CPU) (x y a b : Nat)
    (hlen : s.registers.length = 16)
    (hx : (s.opcode &&& 0x0F00) >>> 8 = x) (hy : (s.opcode &&& 0x00F0) >>> 4 = y)
    (hxF : x ≠ 0xF) (hyF : y ≠ 0xF)
    (ha : byteGet s.registers x = some a) (hb : byteGet s.registers y = some b) :
    (∃ s', sub_registers s = some s' ∧
      byteGet s'.registers x = some (pyAnd255 ((a : Int) - (b : Int))) ∧
      byteGet s'.registers 15 = some (if b < a then 1 else 0)) ∧
    (∃ s', subn_registers s = some s' ∧
      byteGet s'.registers 15 = some (if a < b then 0 else 1)) := by
  have hx16 : x < s.registers.length := byteGet_lt_length ha
  have h15 : (15 : Nat) < s.registers.length := by omega
  have hres : pyAnd255 ((a : Int) - (b : Int)) < 256 := pyAnd255_lt _
  constructor
  · have hflag : (if b < a then 1 else 0) < 256 := by split <;> omega
    have hset1 := byteSet_some h15 hflag
    have hx16' : x < (s.registers.set 15 (if b < a then 1 else 0)).length := by
      simpa using hx16
    have hset2 := byteSet_some hx16' hres
    refine ⟨{ s with registers := (s.registers.set 15 (if b < a then 1 else 0)).set x (pyAnd255 ((a : Int) - (b : Int))) }, ?_, ?_, ?_⟩
    · simp only [sub_registers, hx, hy, ha, hb, Option.bind_eq_bind, Option.some_bind,
        Option.pure_def]
      rw [hset1]
      simp only [Option.some_bind]
      rw [byteGet_set_ne _ (by omega : (15 : Nat) ≠ x), ha,
          byteGet_set_ne _ (by omega : (15 : Nat) ≠ y), hb]
      simp only [Option.some_bind]
      rw [hset2]
      simp only [Option.some_bind]
    · rw [byteGet_set_same _ hx16']
    · rw [byteGet_set_ne _ (by omega : x ≠ 15)]
      exact byteGet_set_same _ h15
  · have hflag : (if a < b then 0 else 1) < 256 := by split <;> omega
    have hset1 := byteSet_some h15 hflag
    have hx16' : x < (s.registers.set 15 (if a < b then 0 else 1)).length := by
      simpa using hx16
    have hset2 := byteSet_some hx16' hres
    refine ⟨{ s with registers := (s.registers.set 15 (if a < b then 0 else 1)).set x (pyAnd255 ((a : Int) - (b : Int))) }, ?_, ?_⟩
    · simp only [subn_registers, hx, hy, ha, hb, Option.bind_eq_bind, Option.some_bind,
        Option.pure_def]
      rw [hset1]
      simp only [Option.some_bind]
      rw [byteGet_set_ne _ (by omega : (15 : Nat) ≠ x), ha,
          byteGet_set_ne _ (by omega : (15 : Nat) ≠ y), hb]
      simp only [Option.some_bind]
      rw [hset2]
      simp only [Option.some_bind]
    · rw [byteGet_set_ne _ (by omega : x ≠ 15)]
      exact byteGet_set_same _ h15

/-- C5 witness: V0=100, V1=200, opcodes 0x8015/0x8017 give V0=156 with
flag 0 for the subtraction and flag 0 for the reversed convention. -/
theorem C5_witness :
    (∃ s', sub_registers w5 = some s' ∧
      byteGet s'.registers 0 = some (pyAnd255 ((100 : Int) - (200 : Int))) ∧
      byteGet s'.registers 15 = some (if 200 < 100 then 1 else 0)) ∧
    (∃ s', subn_registers w5 = some s' ∧
      byteGet s'.registers 15 = some (if 100 < 200 then 0 else 1)) :=
  C5_sub_flags w5 0 1 100 200 (by decide) (by decide) (by decide) (by decide)
    (by decide) (by decide) (by decide)

/-- C5 counterexample: with V0=100, VF=200 and opcode 0x80F5 (`x = 0 ≠
0xF`, `y = 0xF`), the code leaves V0 = 100 — it subtracts the freshly
written borrow flag 0 — not `(100−200) mod 256 = 156` as the claim
requires for every `y`. -/
theorem C5_counterexample :
    ((sub_registers cx5).bind fun t => byteGet t.registers 0) = some 100 ∧
    (100 : Nat) ≠ pyAnd255 ((100 : Int) - (200 : Int)) := by decide

/-- C9, amended: opcode 0xFx29 sets the index register to 5 times the
**full** value of Vx, which coincides with the font-glyph address
`5 * (low nibble)` only when the value is at most 0xF. -/
theorem C9_font_address (s : CPU) (x a : Nat)
    (hx : (s.opcode &&& 0x0F00) >>> 8 = x)
    (ha : byteGet s.registers x = some a) :
    ∃ s', set_i_to_sprite_address s = some s' ∧ s'.I = a * 5 ∧
      (a < 16 → s'.I = 5 * (a &&& 0xF)) := by
  refine ⟨{ s with I := a * 5 }, ?_, rfl, ?_⟩
  · simp only [set_i_to_sprite_address, hx, ha, Option.bind_eq_bind, Option.some_bind,
      Option.pure_def]
  · intro h16
    show a * 5 = 5 * (a &&& 15)
    rw [and15_eq_mod, Nat.mod_eq_of_lt h16, Nat.mul_comm]

/-- C9 witness: V0=7, opcode 0xF029 sets I = 35 = 5·7. -/
theorem C9_witness :
    ∃ s', set_i_to_sprite_address w9 = some s' ∧ s'.I = 7 * 5 ∧
      (7 < 16 → s'.I = 5 * (7 &&& 0xF)) :=
  C9_font_address w9 0 7 (by decide) (by decide)

/-- C9 counterexample: V0=16, opcode 0xF029 sets I = 80 = 16·5, while 5
times the low nibble of 16 is 0. -/
theorem C9_counterexample :
    ((set_i_to_sprite_address cx9).map (fun t => t.I)) = some 80 ∧
    (80 : Nat) ≠ 5 * (16 &&& 0xF) := by decide

/-- C10, amended: when the destination register index is 0xF, the flag is
written first and the result store then overwrites it, but the stored
result itself re-reads Vx **after** the flag write, so the final VF is
the masked result computed with the flag value as the Vx operand: for
0x8Fy4 it is `(carry + Vy) & 0xFF`, for 0x8Fy5/0x8Fy7 `(borrow − Vy) &
0xFF`, for 0x8F_6 `flag >> 1` and for 0x8F_E `(flag << 1) & 0xFF` (with
`y ≠ 0xF` for the binary operations). -/
theorem C10_flag_destination (s : CPU) (y a b : Nat)
    (hlen : s.registers.length = 16)
    (hx : (s.opcode &&& 0x0F00) >>> 8 = 15) (hy : (s.opcode &&& 0x00F0) >>> 4 = y)
    (hyF : y ≠ 15)
    (ha : byteGet s.registers 15 = some a) (hb : byteGet s.registers y = some b) :
    (∃ s', add_registers s = some s' ∧
      byteGet s'.registers 15 = some (((if 255 < a + b then 1 else 0) + b) &&& 0xFF)) ∧
    (∃ s', sub_registers s = some s' ∧
      byteGet s'.registers 15 =
        some (pyAnd255 (((if b < a then 1 else 0 : Nat) : Int) - (b : Int)))) ∧
    (∃ s', subn_registers s = some s' ∧
      byteGet s'.registers 15 =
        some (pyAnd255 (((if a < b then 0 else 1 : Nat) : Int) - (b : Int)))) ∧
    (∃ s', shift_right s = some s' ∧
      byteGet s'.registers 15 = some ((a &&& 0x1) >>> 1)) ∧
    (∃ s', shift_left s = some s' ∧
      byteGet s'.registers 15 = some ((((a &&& 0x80) >>> 7) <<< 1) &&& 0xFF)) := by
  have h15 : (15 : Nat) < s.registers.length := by omega
  have h15' : ∀ c : Nat, (15 : Nat) < (s.registers.set 15 c).length := by
    intro c; simpa using h15
  refine ⟨?_, ?_, ?_, ?_, ?_⟩
  · have hflag : (if 255 < a + b then 1 else 0) < 256 := by split <;> omega
    have hset1 := byteSet_some h15 hflag
    have hset2 := byteSet_some (h15' (if 255 < a + b then 1 else 0)) (and255_lt ((if 255 < a + b then 1 else 0) + b))
    refine ⟨{ s with registers := (s.registers.set 15 (if 255 < a + b then 1 else 0)).set 15 (((if 255 < a + b then 1 else 0) + b) &&& 0xFF) }, ?_, ?_⟩
    · simp only [add_registers, hx, hy, ha, hb, Option.bind_eq_bind, Option.some_bind,
        Option.pure_def]
      rw [hset1]
      simp only [Option.some_bind]
      rw [byteGet_set_same _ h15, byteGet_set_ne _ (by omega : (15 : Nat) ≠ y), hb]
      simp only [Option.some_bind]
      rw [hset2]
      simp only [Option.some_bind]
    · exact byteGet_set_same _ (h15' _)
  · have hflag : (if b < a then 1 else 0) < 256 := by split <;> omega
    have hset1 := byteSet_some h15 hflag
    have hset2 := byteSet_some (h15' (if b < a then 1 else 0))
      (pyAnd255_lt (((if b < a then 1 else 0 : Nat) : Int) - (b : Int)))
    refine ⟨{ s with registers := (s.registers.set 15 (if b < a then 1 else 0)).set 15 (pyAnd255 (((if b < a then 1 else 0 : Nat) : Int) - (b : Int))) }, ?_, ?_⟩
    · simp only [sub_registers, hx, hy, ha, hb, Option.bind_eq_bind, Option.some_bind,
        Option.pure_def]
      rw [hset1]
      simp only [Option.some_bind]
      rw [byteGet_set_same _ h15, byteGet_set_ne _ (by omega : (15 : Nat) ≠ y), hb]
      simp only [Option.some_bind]
      rw [hset2]
      simp only [Option.some_bind]
    · exact byteGet_set_same _ (h15' _)
  · have hflag : (if a < b then 0 else 1) < 256 := by split <;> omega
    have hset1 := byteSet_some h15 hflag
    have hset2 := byteSet_some (h15' (if a < b then 0 else 1))
      (pyAnd255_lt (((if a < b then 0 else 1 : Nat) : Int) - (b : Int)))
    refine ⟨{ s with registers := (s.registers.set 15 (if a < b then 0 else 1)).set 15 (pyAnd255 (((if a < b then 0 else 1 : Nat) : Int) - (b : Int))) }, ?_, ?_⟩
    · simp only [subn_registers, hx, hy, ha, hb, Option.bind_eq_bind, Option.some_bind,
        Option.pure_def]
      rw [hset1]
      simp only [Option.some_bind]
      rw [byteGet_set_same _ h15, byteGet_set_ne _ (by omega : (15 : Nat) ≠ y), hb]
      simp only [Option.some_bind]
      rw [hset2]
      simp only [Option.some_bind]
    · exact byteGet_set_same _ (h15' _)
  · have hflag : a &&& 0x1 < 256 := by
      have := Nat.and_le_right (n := a) (m := 0x1); omega
    have hset1 := byteSet_some h15 hflag
    have hres : (a &&& 0x1) >>> 1 &&& 0xFF < 256 := and255_lt _
    have hres' : ((a &&& 0x1) >>> 1) &&& 0xFF = (a &&& 0x1) >>> 1 := by
      have h1 : a &&& 0x1 ≤ 1 := Nat.and_le_right
      have h2 : (a &&& 0x1) >>> 1 ≤ a &&& 0x1 := shiftRight_le _ _
      rw [and255_eq_mod]
      omega
    have hset2 := byteSet_some (h15' (a &&& 0x1)) hres
    refine ⟨{ s with registers := (s.registers.set 15 (a &&& 0x1)).set 15 (((a &&& 0x1) >>> 1) &&& 0xFF) }, ?_, ?_⟩
    · simp only [shift_right, hx, ha, Option.bind_eq_bind, Option.some_bind,
        Option.pure_def]
      rw [hset1]
      simp only [Option.some_bind]
      rw [byteGet_set_same _ h15]
      simp only [Option.some_bind]
      rw [hset2]
      simp only [Option.some_bind]
    · rw [byteGet_set_same _ (h15' _), hres']
  · have hflag : (a &&& 0x80) >>> 7 < 256 := by
      have h1 : a &&& 0x80 ≤ 0x80 := Nat.and_le_right
      have h2 : (a &&& 0x80) >>> 7 ≤ a &&& 0x80 := shiftRight_le _ _
      omega
    have hset1 := byteSet_some h15 hflag
    have hset2 := byteSet_some (h15' ((a &&& 0x80) >>> 7)) (and255_lt (((a &&& 0x80) >>> 7) <<< 1))
    refine ⟨{ s with registers := (s.registers.set 15 ((a &&& 0x80) >>> 7)).set 15 ((((a &&& 0x80) >>> 7) <<< 1) &&& 0xFF) }, ?_, ?_⟩
    · simp only [shift_left, hx, ha, Option.bind_eq_bind, Option.some_bind,
        Option.pure_def]
      rw [hset1]
      simp only [Option.some_bind]
      rw [byteGet_set_same _ h15]
      simp only [Option.some_bind]
      rw [hset2]
      simp only [Option.some_bind]
    · exact byteGet_set_same _ (h15' _)

/-- C10 witness: VF=200, V1=100, opcode 0x8F14 and friends. -/
theorem C10_witness :
    (∃ s', add_registers w10 = some s' ∧
      byteGet s'.registers 15 = some (((if 255 < 200 + 100 then 1 else 0) + 100) &&& 0xFF)) ∧
    (∃ s', sub_registers w10 = some s' ∧
      byteGet s'.registers 15 =
        some (pyAnd255 (((if 100 < 200 then 1 else 0 : Nat) : Int) - (100 : Int)))) ∧
    (∃ s', subn_registers w10 = some s' ∧
      byteGet s'.registers 15 =
        some (pyAnd255 (((if 200 < 100 then 0 else 1 : Nat) : Int) - (100 : Int)))) ∧
    (∃ s', shift_right w10 = some s' ∧
      byteGet s'.registers 15 = some ((200 &&& 0x1) >>> 1)) ∧
    (∃ s', shift_left w10 = some s' ∧
      byteGet s'.registers 15 = some ((((200 &&& 0x80) >>> 7) <<< 1) &&& 0xFF)) :=
  C10_flag_destination w10 1 200 100 (by decide) (by decide) (by decide) (by decide)
    (by decide) (by decide)

/-- C10 counterexample: opcode 0x8F06 with VF=0xFF leaves VF = 0 — neither
the masked shift result `0xFF >> 1 = 0x7F` the claim asserts, nor the
shifted-out bit 1. -/
theorem C10_counterexample :
    ((shift_right cx10).bind fun t => byteGet t.registers 15) = some 0 ∧
    (0 : Nat) ≠ (0xFF >>> 1) &&& 0xFF := by decide

/-- C6, amended: a call/return round trip restores `pc` and the stack
depth, provided the stack pointer at the call is between 0 **and 14**:
`call_addr` writes slot `sp+1` of the 16-slot stack, so a call at
`sp = 15` aborts instead (see the counterexample).  `s.pc` is the
already-advanced program counter, i.e. the instruction immediately after
the call. -/
theorem C6_call_return_roundtrip (s s2 : CPU)
    (hlen : s.stack.length = 16) (h0 : 0 ≤ s.sp) (h14 : s.sp ≤ 14) :
    ∃ s1, call_addr s = some s1 ∧ s1.sp = s.sp + 1 ∧
      s1.pc = s.opcode &&& 0x0FFF ∧ pyGet s1.stack s1.sp = some s.pc ∧
      (s2.sp = s1.sp → pyGet s2.stack s2.sp = pyGet s1.stack s1.sp →
        ∃ s3, return_from_subroutine s2 = some s3 ∧ s3.pc = s.pc ∧ s3.sp = s.sp) := by
  have hlt : s.sp + 1 < (s.stack.length : Int) := by rw [hlen]; omega
  have hset := pySet_nonneg (l := s.stack) (i := s.sp + 1) s.pc (by omega) hlt
  have htlt : (s.sp + 1).toNat < s.stack.length := by omega
  refine ⟨{ s with sp := s.sp + 1, stack := s.stack.set (s.sp + 1).toNat s.pc, pc := s.opcode &&& 0x0FFF }, ?_, rfl, rfl, ?_, ?_⟩
  · simp only [call_addr, Option.bind_eq_bind, hset, Option.some_bind, Option.pure_def]
  · show pyGet (s.stack.set (s.sp + 1).toNat s.pc) (s.sp + 1) = some s.pc
    rw [pyGet_nonneg (by omega) (by simpa using hlt)]
    exact List.getElem?_set_eq_of_lt s.pc htlt
  · intro hsp2 hslot
    have hget2 : pyGet s2.stack s2.sp = some s.pc := by
      rw [hslot]
      show pyGet (s.stack.set (s.sp + 1).toNat s.pc) (s.sp + 1) = some s.pc
      rw [pyGet_nonneg (by omega) (by simpa using hlt)]
      exact List.getElem?_set_eq_of_lt s.pc htlt
    refine ⟨{ s2 with pc := s.pc, sp := s2.sp - 1 }, ?_, rfl, ?_⟩
    · simp only [return_from_subroutine, Option.bind_eq_bind, hget2, Option.some_bind,
        Option.pure_def]
    · show s2.sp - 1 = s.sp
      have : s2.sp = s.sp + 1 := hsp2
      omega

/-- C6 witness: call 0x2300 from `pc = 0x202` at `sp = 0`, then return. -/
theorem C6_witness :
    ∃ s1, call_addr w6 = some s1 ∧ s1.sp = w6.sp + 1 ∧
      s1.pc = w6.opcode &&& 0x0FFF ∧ pyGet s1.stack s1.sp = some w6.pc ∧
      (w6after.sp = s1.sp → pyGet w6after.stack w6after.sp = pyGet s1.stack s1.sp →
        ∃ s3, return_from_subroutine w6after = some s3 ∧ s3.pc = w6.pc ∧ s3.sp = w6.sp) :=
  C6_call_return_roundtrip w6 w6after (by decide) (by decide) (by decide)

/-- C6 counterexample: at stack depth 15 — strictly below the 16-slot
capacity the claim quantifies over — the call itself aborts (writes slot
16), so no round trip completes. -/
theorem C6_counterexample : call_addr cx6 = none := by decide

/-- C2, amended: a step is not always exception-free.  A subroutine return
at stack depth 0 does complete (Python indexes slot 0 and leaves
`sp = −1`), but a subroutine call with `sp = 15` aborts the step by
writing past the 16-slot stack, and a draw whose computed framebuffer
index reaches the 64×32 grid size aborts instead of wrapping. -/
theorem C2_step_errors :
    (∀ s : CPU, s.stack.length = 16 → s.sp = 15 → call_addr s = none) ∧
    (∀ s : CPU, s.stack.length = 16 → s.sp = 0 →
      ∃ s', return_from_subroutine s = some s' ∧ s'.sp = -1 ∧
        s.stack[0]? = some s'.pc) ∧
    draw_sprite cx2draw = none := by
  refine ⟨?_, ?_, draw_row31_aborts cx2draw rfl rfl rfl
    (by have h := initCPU_memory_get 0; norm_num at h; exact h)⟩
  · intro s hlen hsp
    have hnone : pySet s.stack (s.sp + 1) s.pc = none := by
      unfold pySet
      rw [hsp, hlen]
      norm_num
    simp only [call_addr, Option.bind_eq_bind, hnone, Option.none_bind]
  · intro s hlen hsp
    have h0 : (0 : Nat) < s.stack.length := by omega
    obtain ⟨v, hv⟩ : ∃ v, s.stack[0]? = some v :=
      ⟨s.stack.get ⟨0, h0⟩, by rw [List.getElem?_eq_getElem h0]; rfl⟩
    have hget : pyGet s.stack s.sp = some v := by
      rw [hsp, pyGet_nonneg (by norm_num) (by rw [hlen]; norm_num)]
      exact hv
    refine ⟨{ s with pc := v, sp := s.sp - 1 }, ?_, by show s.sp - 1 = -1; omega, by rw [hv]⟩
    simp only [return_from_subroutine, Option.bind_eq_bind, hget, Option.some_bind,
      Option.pure_def]

/-- C2 witness: the concrete instances of the amended behaviors. -/
theorem C2_witness :
    call_addr cs2a = none ∧
    (∃ s', return_from_subroutine initCPU = some s' ∧ s'.sp = -1 ∧
      initCPU.stack[0]? = some s'.pc) :=
  ⟨C2_step_errors.1 cs2a (by decide) (by decide),
   C2_step_errors.2.1 initCPU (by decide) (by decide)⟩

/-- C2 counterexample: a full step on a state with `sp = 15` whose fetched
instruction is the call 0x2300 aborts (raises in Python, killing the
host loop of `emulator.py`), contradicting the claim that a step never
raises. -/
theorem C2_counterexample : cycle cx2 0 = none := by
  have h1 : byteGet cx2.memory cx2.pc = some 0x23 := by
    show (initCPU.memory.set 0x200 0x23)[(0x200 : Nat)]? = some 0x23
    rw [List.getElem?_set]
    simp [initCPU_memory_length]
  have h2 : byteGet cx2.memory (cx2.pc + 1) = some 0 := by
    show (initCPU.memory.set 0x200 0x23)[(0x201 : Nat)]? = some 0
    rw [List.getElem?_set_ne (by norm_num)]
    have h := initCPU_memory_get 0x201
    norm_num at h
    exact h
  rw [cycle_eq 0 h1 h2]
  rw [show ((0x23 : Nat) <<< 8) ||| 0 = 0x2300 from by decide]
  rw [exec_call_overflow ({ cx2 with opcode := 0x2300 }) rfl rfl rfl]
  rfl

/-- C8, confirmed: an instruction word whose family or sub-opcode the
dispatch tables do not implement (the whole 0xE family, the key-wait
0xFx0A, and any unknown 0x0/0x8/0xF sub-opcode) leaves every component
of the state unchanged except the program counter, which advances by 2;
the timer decrements of the surrounding step happen afterwards. -/
theorem C8_unrecognized_noop (s : CPU) (rand : Nat)
    (h : unrecognizedOp s.opcode = true) :
    execute_instruction s rand = some { s with pc := s.pc + 2 } := by
  simp only [unrecognizedOp, Bool.or_eq_true, Bool.and_eq_true, beq_iff_eq,
    bne_iff_ne, ne_eq] at h
  simp only [execute_instruction]
  rcases h with ((h | h) | h) | h
  · have hfam : (s.opcode &&& 0xF000) >>> 12 = 0x0 := by omega
    have hE0 : ¬(s.opcode &&& 0x00FF = 0xE0) := by omega
    have hEE : ¬(s.opcode &&& 0x00FF = 0xEE) := by omega
    rw [hfam]
    norm_num [execute_zero, hE0, hEE]
  · have hfam : (s.opcode &&& 0xF000) >>> 12 = 0x8 := by omega
    have hn0 : ¬(s.opcode &&& 0x000F = 0x0) := by omega
    have hn1 : ¬(s.opcode &&& 0x000F = 0x1) := by omega
    have hn2 : ¬(s.opcode &&& 0x000F = 0x2) := by omega
    have hn3 : ¬(s.opcode &&& 0x000F = 0x3) := by omega
    have hn4 : ¬(s.opcode &&& 0x000F = 0x4) := by omega
    have hn5 : ¬(s.opcode &&& 0x000F = 0x5) := by omega
    have hn6 : ¬(s.opcode &&& 0x000F = 0x6) := by omega
    have hn7 : ¬(s.opcode &&& 0x000F = 0x7) := by omega
    have hnE : ¬(s.opcode &&& 0x000F = 0xE) := by omega
    rw [hfam]
    norm_num [execute_logic_operations, not_implemented, hn0, hn1, hn2, hn3, hn4,
      hn5, hn6, hn7, hnE]
  · have hfam : (s.opcode &&& 0xF000) >>> 12 = 0xE := by omega
    rw [hfam]
    norm_num [not_implemented]
  · obtain ⟨hf, hA | hmiss⟩ := h
    · have hfam : (s.opcode &&& 0xF000) >>> 12 = 0xF := by omega
      rw [hfam]
      norm_num [execute_misc, hA, wait_for_keypress, not_implemented]
    · have hfam : (s.opcode &&& 0xF000) >>> 12 = 0xF := by omega
      have h07 : ¬(s.opcode &&& 0x00FF = 0x07) := by omega
      have h0A : ¬(s.opcode &&& 0x00FF = 0x0A) := by omega
      have h15' : ¬(s.opcode &&& 0x00FF = 0x15) := by omega
      have h18 : ¬(s.opcode &&& 0x00FF = 0x18) := by omega
      have h1E : ¬(s.opcode &&& 0x00FF = 0x1E) := by omega
      have h29 : ¬(s.opcode &&& 0x00FF = 0x29) := by omega
      have h33 : ¬(s.opcode &&& 0x00FF = 0x33) := by omega
      have h55 : ¬(s.opcode &&& 0x00FF = 0x55) := by omega
      have h65 : ¬(s.opcode &&& 0x00FF = 0x65) := by omega
      rw [hfam]
      norm_num [execute_misc, not_implemented, h07, h0A, h15', h18, h1E, h29, h33,
        h55, h65]

/-- C8 witness: opcode 0xE09E only advances `pc` by 2. -/
theorem C8_witness : execute_instruction cw8 0 = some { cw8 with pc := cw8.pc + 2 } :=
  C8_unrecognized_noop cw8 0 (by decide)

/-- C7, confirmed: in every successful step the audible-tone side effect is
emitted exactly when the sound timer observed after the instruction and
before the timer decrement equals 1 (so at most once per step, never
from the steady value 0), and each non-zero timer is decremented exactly
once (`Nat` subtraction: a zero timer stays 0). -/
theorem C7_beep_iff (s : CPU) (rand : Nat) (s' : CPU) (beep : Bool)
    (h : cycle s rand = some (s', beep)) :
    ∃ b1 b2 t, byteGet s.memory s.pc = some b1 ∧ byteGet s.memory (s.pc + 1) = some b2 ∧
      execute_instruction { s with opcode := (b1 <<< 8) ||| b2 } rand = some t ∧
      (beep = true ↔ t.sound_timer = 1) ∧
      s'.sound_timer = t.sound_timer - 1 ∧ s'.delay_timer = t.delay_timer - 1 := by
  simp only [cycle, Option.bind_eq_bind, Option.bind_eq_some, Option.pure_def,
    Option.some.injEq] at h
  obtain ⟨b1, hb1, b2, hb2, t, ht, hpair⟩ := h
  have h1 : s' = (timer_tick t).1 := by rw [hpair]
  have h2 : beep = (timer_tick t).2 := by rw [hpair]
  subst h1
  subst h2
  refine ⟨b1, b2, t, hb1, hb2, ht, ?_, ?_, ?_⟩ <;>
    by_cases hd : 0 < t.delay_timer <;> by_cases hs : 0 < t.sound_timer <;>
      simp [timer_tick, hd, hs] <;> omega

/-- C7 witness: a step from sound timer 1 emits the beep and leaves the
timer at 0. -/
theorem C7_witness :
    ∃ b1 b2 t, byteGet w7.memory w7.pc = some b1 ∧
      byteGet w7.memory (w7.pc + 1) = some b2 ∧
      execute_instruction { w7 with opcode := (b1 <<< 8) ||| b2 } 0 = some t ∧
      (true = true ↔ t.sound_timer = 1) ∧
      w7after.sound_timer = t.sound_timer - 1 ∧
      w7after.delay_timer = t.delay_timer - 1 :=
  C7_beep_iff w7 0 w7after true (by
    have h1 : byteGet w7.memory w7.pc = some 0 := by
      have h := initCPU_memory_get 0x200
      norm_num at h
      exact h
    have h2 : byteGet w7.memory (w7.pc + 1) = some 0 := by
      have h := initCPU_memory_get 0x201
      norm_num at h
      exact h
    rw [cycle_eq 0 h1 h2]
    rw [show ((0 : Nat) <<< 8) ||| 0 = 0 from by decide]
    rw [exec_op0000 ({ w7 with opcode := 0 }) rfl]
    rfl)

/-- C1, code_bug: the draw opcode does not wrap.  With V0=62, V1=0, I=0
(`memory[0] = 0xF0`), opcode 0xD011, the four set sprite bits land at
linear indices 62..65: the code lights gfx[64] and gfx[65] — row 1,
columns 0 and 1 — while the wrapped target gfx[0] (row 0, column 64 mod
64) stays unlit; and with V1=31 the computed index reaches 2048 and the
draw aborts instead of wrapping, contradicting both the claim and the
function's own docstring. -/
theorem C1_draw_no_wrap :
    ((draw_sprite cx1a).bind fun t => byteGet t.gfx 64) = some 1 ∧
    ((draw_sprite cx1a).bind fun t => byteGet t.gfx 0) = some 0 ∧
    draw_sprite cx1b = none := by
  have hry : byteGet (cx1a.registers.set 15 0) 1 = some 0 := by decide
  have hrx : byteGet (cx1a.registers.set 15 0) 0 = some 62 := by decide
  have hp62 : (List.replicate 2048 (0 : Nat))[(0 + 0) * 64 + (62 + 0)]? = some 0 := by
    rw [List.getElem?_replicate]
    norm_num
  have hp63 : ((List.replicate 2048 (0 : Nat)).set 62 1)[(0 + 0) * 64 + (62 + 1)]? = some 0 := by
    rw [List.getElem?_set_ne (by norm_num), List.getElem?_replicate]
    norm_num
  have hp64 : (((List.replicate 2048 (0 : Nat)).set 62 1).set 63 1)[(0 + 0) * 64 + (62 + 2)]? = some 0 := by
    rw [List.getElem?_set_ne (by norm_num), List.getElem?_set_ne (by norm_num), List.getElem?_replicate]
    norm_num
  have hp65 : ((((List.replicate 2048 (0 : Nat)).set 62 1).set 63 1).set 64 1)[(0 + 0) * 64 + (62 + 3)]? = some 0 := by
    rw [List.getElem?_set_ne (by norm_num), List.getElem?_set_ne (by norm_num), List.getElem?_set_ne (by norm_num), List.getElem?_replicate]
    norm_num
  have hg62 : byteSet (List.replicate 2048 (0 : Nat)) ((0 + 0) * 64 + (62 + 0)) (0 ^^^ 1) = some ((List.replicate 2048 (0 : Nat)).set 62 1) := by
    show byteSet (List.replicate 2048 (0 : Nat)) 62 1 = _
    exact byteSet_some (by rw [List.length_replicate]; omega) (by omega)
  have hg63 : byteSet ((List.replicate 2048 (0 : Nat)).set 62 1) ((0 + 0) * 64 + (62 + 1)) (0 ^^^ 1) = some (((List.replicate 2048 (0 : Nat)).set 62 1).set 63 1) := by
    show byteSet ((List.replicate 2048 (0 : Nat)).set 62 1) 63 1 = _
    exact byteSet_some (by rw [List.length_set, List.length_replicate]; omega) (by omega)
  have hg64 : byteSet (((List.replicate 2048 (0 : Nat)).set 62 1).set 63 1) ((0 + 0) * 64 + (62 + 2)) (0 ^^^ 1) = some ((((List.replicate 2048 (0 : Nat)).set 62 1).set 63 1).set 64 1) := by
    show byteSet (((List.replicate 2048 (0 : Nat)).set 62 1).set 63 1) 64 1 = _
    exact byteSet_some (by rw [List.length_set, List.length_set, List.length_replicate]; omega) (by omega)
  have hg65 : byteSet ((((List.replicate 2048 (0 : Nat)).set 62 1).set 63 1).set 64 1) ((0 + 0) * 64 + (62 + 3)) (0 ^^^ 1) = some (((((List.replicate 2048 (0 : Nat)).set 62 1).set 63 1).set 64 1).set 65 1) := by
    show byteSet ((((List.replicate 2048 (0 : Nat)).set 62 1).set 63 1).set 64 1) 65 1 = _
    exact byteSet_some (by rw [List.length_set, List.length_set, List.length_set, List.length_replicate]; omega) (by omega)
  have step0 : drawCols 0 1 0 0xF0 0 8 ({ cx1a with registers := cx1a.registers.set 15 0, gfx := List.replicate 2048 (0 : Nat) } : CPU) = drawCols 0 1 0 0xF0 1 7 ({ cx1a with registers := cx1a.registers.set 15 0, gfx := (List.replicate 2048 (0 : Nat)).set 62 1 } : CPU) :=
    drawCols_step_set 0 1 0 _ (by norm_num : (8 : Nat) = 7 + 1)
      (by decide : (0xF0 : Nat) &&& (0x80 >>> 0) ≠ 0) hry hrx hp62
      (by norm_num : (0 : Nat) ≠ 1) hg62
  have step1 : drawCols 0 1 0 0xF0 1 7 ({ cx1a with registers := cx1a.registers.set 15 0, gfx := (List.replicate 2048 (0 : Nat)).set 62 1 } : CPU) = drawCols 0 1 0 0xF0 2 6 ({ cx1a with registers := cx1a.registers.set 15 0, gfx := ((List.replicate 2048 (0 : Nat)).set 62 1).set 63 1 } : CPU) :=
    drawCols_step_set 0 1 0 _ (by norm_num : (7 : Nat) = 6 + 1)
      (by decide : (0xF0 : Nat) &&& (0x80 >>> 1) ≠ 0) hry hrx hp63
      (by norm_num : (0 : Nat) ≠ 1) hg63
  have step2 : drawCols 0 1 0 0xF0 2 6 ({ cx1a with registers := cx1a.registers.set 15 0, gfx := ((List.replicate 2048 (0 : Nat)).set 62 1).set 63 1 } : CPU) = drawCols 0 1 0 0xF0 3 5 ({ cx1a with registers := cx1a.registers.set 15 0, gfx := (((List.replicate 2048 (0 : Nat)).set 62 1).set 63 1).set 64 1 } : CPU) :=
    drawCols_step_set 0 1 0 _ (by norm_num : (6 : Nat) = 5 + 1)
      (by decide : (0xF0 : Nat) &&& (0x80 >>> 2) ≠ 0) hry hrx hp64
      (by norm_num : (0 : Nat) ≠ 1) hg64
  have step3 : drawCols 0 1 0 0xF0 3 5 ({ cx1a with registers := cx1a.registers.set 15 0, gfx := (((List.replicate 2048 (0 : Nat)).set 62 1).set 63 1).set 64 1 } : CPU) = drawCols 0 1 0 0xF0 4 4 ({ cx1a with registers := cx1a.registers.set 15 0, gfx := ((((List.replicate 2048 (0 : Nat)).set 62 1).set 63 1).set 64 1).set 65 1 } : CPU) :=
    drawCols_step_set 0 1 0 _ (by norm_num : (5 : Nat) = 4 + 1)
      (by decide : (0xF0 : Nat) &&& (0x80 >>> 3) ≠ 0) hry hrx hp65
      (by norm_num : (0 : Nat) ≠ 1) hg65
  have step4 : drawCols 0 1 0 0xF0 4 4 ({ cx1a with registers := cx1a.registers.set 15 0, gfx := ((((List.replicate 2048 (0 : Nat)).set 62 1).set 63 1).set 64 1).set 65 1 } : CPU) = drawCols 0 1 0 0xF0 5 3 ({ cx1a with registers := cx1a.registers.set 15 0, gfx := ((((List.replicate 2048 (0 : Nat)).set 62 1).set 63 1).set 64 1).set 65 1 } : CPU) :=
    drawCols_step_clear 0 1 0 _ (by norm_num : (4 : Nat) = 3 + 1)
      (by decide : (0xF0 : Nat) &&& (0x80 >>> 4) = 0)
  have step5 : drawCols 0 1 0 0xF0 5 3 ({ cx1a with registers := cx1a.registers.set 15 0, gfx := ((((List.replicate 2048 (0 : Nat)).set 62 1).set 63 1).set 64 1).set 65 1 } : CPU) = drawCols 0 1 0 0xF0 6 2 ({ cx1a with registers := cx1a.registers.set 15 0, gfx := ((((List.replicate 2048 (0 : Nat)).set 62 1).set 63 1).set 64 1).set 65 1 } : CPU) :=
    drawCols_step_clear 0 1 0 _ (by norm_num : (3 : Nat) = 2 + 1)
      (by decide : (0xF0 : Nat) &&& (0x80 >>> 5) = 0)
  have step6 : drawCols 0 1 0 0xF0 6 2 ({ cx1a with registers := cx1a.registers.set 15 0, gfx := ((((List.replicate 2048 (0 : Nat)).set 62 1).set 63 1).set 64 1).set 65 1 } : CPU) = drawCols 0 1 0 0xF0 7 1 ({ cx1a with registers := cx1a.registers.set 15 0, gfx := ((((List.replicate 2048 (0 : Nat)).set 62 1).set 63 1).set 64 1).set 65 1 } : CPU) :=
    drawCols_step_clear 0 1 0 _ (by norm_num : (2 : Nat) = 1 + 1)
      (by decide : (0xF0 : Nat) &&& (0x80 >>> 6) = 0)
  have step7 : drawCols 0 1 0 0xF0 7 1 ({ cx1a with registers := cx1a.registers.set 15 0, gfx := ((((List.replicate 2048 (0 : Nat)).set 62 1).set 63 1).set 64 1).set 65 1 } : CPU) = drawCols 0 1 0 0xF0 8 0 ({ cx1a with registers := cx1a.registers.set 15 0, gfx := ((((List.replicate 2048 (0 : Nat)).set 62 1).set 63 1).set 64 1).set 65 1 } : CPU) :=
    drawCols_step_clear 0 1 0 _ (by norm_num : (1 : Nat) = 0 + 1)
      (by decide : (0xF0 : Nat) &&& (0x80 >>> 7) = 0)
  have hcols : drawCols 0 1 0 0xF0 0 8 ({ cx1a with registers := cx1a.registers.set 15 0, gfx := List.replicate 2048 (0 : Nat) } : CPU) = some ({ cx1a with registers := cx1a.registers.set 15 0, gfx := ((((List.replicate 2048 (0 : Nat)).set 62 1).set 63 1).set 64 1).set 65 1 } : CPU) := by
    exact (((((((step0.trans step1).trans step2).trans step3).trans step4).trans step5).trans step6).trans step7).trans (drawCols_zero 0 1 0 0xF0 8 ({ cx1a with registers := cx1a.registers.set 15 0, gfx := ((((List.replicate 2048 (0 : Nat)).set 62 1).set 63 1).set 64 1).set 65 1 } : CPU))
  have hsp : byteGet ({ cx1a with registers := cx1a.registers.set 15 0, gfx := List.replicate 2048 (0 : Nat) } : CPU).memory (({ cx1a with registers := cx1a.registers.set 15 0, gfx := List.replicate 2048 (0 : Nat) } : CPU).I + 0) = some 0xF0 := by
    have h := initCPU_memory_get 0
    norm_num at h
    exact h
  have hrows : drawRows 0 1 0 1 ({ cx1a with registers := cx1a.registers.set 15 0, gfx := List.replicate 2048 (0 : Nat) } : CPU) = some ({ cx1a with registers := cx1a.registers.set 15 0, gfx := ((((List.replicate 2048 (0 : Nat)).set 62 1).set 63 1).set 64 1).set 65 1 } : CPU) := by
    rw [drawRows_step (by norm_num : (1 : Nat) = 0 + 1) hsp, hcols]
    simp only [Option.some_bind]
    exact drawRows_zero 0 1 1 ({ cx1a with registers := cx1a.registers.set 15 0, gfx := ((((List.replicate 2048 (0 : Nat)).set 62 1).set 63 1).set 64 1).set 65 1 } : CPU)
  have hdraw : draw_sprite cx1a = some { ({ cx1a with registers := cx1a.registers.set 15 0, gfx := ((((List.replicate 2048 (0 : Nat)).set 62 1).set 63 1).set 64 1).set 65 1 } : CPU) with drawFlag := true } := by
    rw [draw_sprite_eq cx1a (byteSet_some (show (0xF : Nat) < cx1a.registers.length by decide) (by norm_num)),
      (by decide : (cx1a.opcode &&& 0x0F00) >>> 8 = 0),
      (by decide : (cx1a.opcode &&& 0x00F0) >>> 4 = 1),
      (by decide : cx1a.opcode &&& 0x000F = 1)]
    rw [show ({ cx1a with registers := cx1a.registers.set 15 0 } : CPU) = ({ cx1a with registers := cx1a.registers.set 15 0, gfx := List.replicate 2048 (0 : Nat) } : CPU) from rfl]
    rw [hrows]
    rfl
  refine ⟨?_, ?_, draw_row31_aborts cx1b rfl rfl rfl
    (by have h := initCPU_memory_get 0; norm_num at h; exact h)⟩
  · rw [hdraw]
    simp only [Option.some_bind]
    show (((((List.replicate 2048 (0 : Nat)).set 62 1).set 63 1).set 64 1).set 65 1)[(64 : Nat)]? = some 1
    rw [List.getElem?_set_ne (by norm_num),
      List.getElem?_set_eq_of_lt 1
        (by rw [List.length_set, List.length_set, List.length_replicate]; omega)]
  · rw [hdraw]
    simp only [Option.some_bind]
    show (((((List.replicate 2048 (0 : Nat)).set 62 1).set 63 1).set 64 1).set 65 1)[(0 : Nat)]? = some 0
    rw [List.getElem?_set_ne (by norm_num), List.getElem?_set_ne (by norm_num),
      List.getElem?_set_ne (by norm_num), List.getElem?_set_ne (by norm_num),
      List.getElem?_replicate]
    norm_num



theorem romTail_length (n : Nat) : (romTail n).length = 2 * n := by
  induction n with
  | zero => rfl
  | succ k ih =>
    simp only [romTail, List.length_cons, ih]
    omega

theorem romTail_lt (n : Nat) : ∀ v ∈ romTail n, v < 256 := by
  induction n with
  | zero => intro v hv; cases hv
  | succ k ih =>
    intro v hv
    simp only [romTail, List.mem_cons] at hv
    rcases hv with rfl | rfl | hv
    · norm_num
    · norm_num
    · exact ih v hv

theorem romTail_get_even (n k : Nat) (h : k < n) : (romTail n)[2 * k]? = some 0xF0 := by
  induction n generalizing k with
  | zero => omega
  | succ j ih =>
    match k with
    | 0 => simp [romTail]
    | k' + 1 =>
      rw [show romTail (j + 1) = 0xF0 :: 0x1E :: romTail j from rfl,
        show 2 * (k' + 1) = (2 * k' + 1) + 1 from by ring,
        List.getElem?_cons_succ, List.getElem?_cons_succ]
      exact ih k' (by omega)

theorem romTail_get_odd (n k : Nat) (h : k < n) : (romTail n)[2 * k + 1]? = some 0x1E := by
  induction n generalizing k with
  | zero => omega
  | succ j ih =>
    match k with
    | 0 => simp [romTail]
    | k' + 1 =>
      rw [show romTail (j + 1) = 0xF0 :: 0x1E :: romTail j from rfl,
        show 2 * (k' + 1) + 1 = ((2 * k' + 1) + 1) + 1 from by ring,
        List.getElem?_cons_succ, List.getElem?_cons_succ]
      exact ih k' (by omega)

theorem romFx1E_length : romFx1E.length = 520 := by
  simp only [romFx1E, List.length_append, romTail_length]
  norm_num

theorem romFx1E_lt : ∀ v ∈ romFx1E, v < 256 := by
  intro v hv
  simp only [romFx1E, List.mem_append, List.mem_cons] at hv
  rcases hv with (rfl | rfl | rfl | rfl | hv) | hv
  · norm_num
  · norm_num
  · norm_num
  · norm_num
  · cases hv
  · exact romTail_lt 258 v hv

theorem romFx1E_get_even (k : Nat) (h : k < 258) : romFx1E[4 + 2 * k]? = some 0xF0 := by
  rw [romFx1E, List.getElem?_append_right
    (by simp only [List.length_cons, List.length_nil]; omega :
      ([0x60, 0xFF, 0xAF, 0xFF] : List Nat).length ≤ 4 + 2 * k)]
  rw [show 4 + 2 * k - ([0x60, 0xFF, 0xAF, 0xFF] : List Nat).length = 2 * k from
    by simp only [List.length_cons, List.length_nil]; omega]
  exact romTail_get_even 258 k h

theorem romFx1E_get_odd (k : Nat) (h : k < 258) : romFx1E[4 + 2 * k + 1]? = some 0x1E := by
  rw [romFx1E, List.getElem?_append_right
    (by simp only [List.length_cons, List.length_nil]; omega :
      ([0x60, 0xFF, 0xAF, 0xFF] : List Nat).length ≤ 4 + 2 * k + 1)]
  rw [show 4 + 2 * k + 1 - ([0x60, 0xFF, 0xAF, 0xFF] : List Nat).length = 2 * k + 1 from
    by simp only [List.length_cons, List.length_nil]; omega]
  exact romTail_get_odd 258 k h

theorem loadBytes_spec : ∀ (rom : List Nat) (idx : Nat) (mem : List Nat) (base : Nat),
    (∀ d ∈ rom, d < 256) → base + idx + rom.length ≤ mem.length →
    ∃ mem', loadBytes base idx mem rom = some mem' ∧ mem'.length = mem.length ∧
      (∀ j, j < rom.length → mem'[base + idx + j]? = rom[j]?) ∧
      (∀ i, i < base + idx → mem'[i]? = mem[i]?) := by
  intro rom
  induction rom with
  | nil =>
    intro idx mem base _ _
    exact ⟨mem, rfl, rfl, fun j hj => absurd hj (by simp), fun i _ => rfl⟩
  | cons d rest ih =>
    intro idx mem base hlt hlen
    have hd : d < 256 := hlt d (by simp)
    have hbase : base + idx < mem.length := by
      simp only [List.length_cons] at hlen
      omega
    have hset : byteSet mem (base + idx) d = some (mem.set (base + idx) d) :=
      byteSet_some hbase hd
    obtain ⟨mem', hrun, hlen', hget, hlow⟩ := ih (idx + 1) (mem.set (base + idx) d) base
      (fun v hv => hlt v (by simp [hv]))
      (by simp only [List.length_set, List.length_cons] at hlen ⊢; omega)
    refine ⟨mem', ?_, by rw [hlen']; simp, ?_, ?_⟩
    · show loadBytes base idx mem (d :: rest) = some mem'
      simp only [loadBytes, Option.bind_eq_bind, hset, Option.some_bind]
      exact hrun
    · intro j hj
      match j with
      | 0 =>
        have h1 := hlow (base + idx) (by omega)
        rw [show base + idx + 0 = base + idx from by ring, h1,
          List.getElem?_set_eq_of_lt d hbase]
        simp
      | j' + 1 =>
        have h2 := hget j' (by simp only [List.length_cons] at hj; omega)
        rw [show base + idx + (j' + 1) = base + (idx + 1) + j' from by ring, h2]
        simp
    · intro i hi
      rw [hlow i (by omega), List.getElem?_set_ne (by omega)]

theorem loadBytes_inv : ∀ (rom : List Nat) (idx : Nat) (mem mem' : List Nat) (base : Nat),
    loadBytes base idx mem rom = some mem' → (∀ v ∈ mem, v < 256) →
    mem'.length = mem.length ∧ ∀ v ∈ mem', v < 256 := by
  intro rom
  induction rom with
  | nil =>
    intro idx mem mem' base h hb
    obtain rfl : mem = mem' := by simpa [loadBytes] using h
    exact ⟨rfl, hb⟩
  | cons d rest ih =>
    intro idx mem mem' base h hb
    simp only [loadBytes, Option.bind_eq_bind, Option.bind_eq_some] at h
    obtain ⟨m1, hm1, hrest⟩ := h
    obtain ⟨hidx, hd, rfl⟩ := byteSet_eq_some hm1
    obtain ⟨hl, hv⟩ := ih (idx + 1) _ mem' base hrest (mem_set_lt hb hd)
    exact ⟨by rw [hl]; simp, hv⟩

theorem run_reachable : ∀ (n : Nat) (s s' : CPU), Reachable s → run s n = some s' →
    Reachable s' := by
  intro n
  induction n with
  | zero =>
    intro s s' hr h
    obtain rfl : s = s' := by simpa [run] using h
    exact hr
  | succ m ih =>
    intro s s' hr h
    rcases hcy : cycle s 0 with _ | r
    · rw [run_succ s rfl, hcy] at h
      cases h
    · rw [run_succ s rfl, hcy] at h
      simp only [Option.some_bind] at h
      exact ih r.1 s' (Reachable.step s r.1 0 r.2 hr (by rw [hcy])) h

theorem runFx1E : ∀ (n : Nat) (s : CPU),
    (∀ k, k < n → byteGet s.memory (s.pc + 2 * k) = some 0xF0 ∧
      byteGet s.memory (s.pc + 2 * k + 1) = some 0x1E) →
    byteGet s.registers 0 = some 255 → s.delay_timer = 0 → s.sound_timer = 0 →
    ∃ s', run s n = some s' ∧ s'.I = s.I + 255 * n ∧ s'.pc = s.pc + 2 * n ∧
      s'.memory = s.memory ∧ s'.registers = s.registers ∧
      s'.delay_timer = 0 ∧ s'.sound_timer = 0 := by
  intro n
  induction n with
  | zero =>
    intro s _ _ hd hs
    exact ⟨s, rfl, by omega, by omega, rfl, rfl, hd, hs⟩
  | succ m ih =>
    intro s hmem hr hd hs
    have h0 := hmem 0 (by omega)
    have hb1 : byteGet s.memory s.pc = some 0xF0 := by
      have h1 := h0.1
      rw [show s.pc + 2 * 0 = s.pc from by ring] at h1
      exact h1
    have hb2 : byteGet s.memory (s.pc + 1) = some 0x1E := by
      have h2 := h0.2
      rw [show s.pc + 2 * 0 + 1 = s.pc + 1 from by ring] at h2
      exact h2
    have hexec : execute_instruction ({ s with opcode := 0xF01E }) 0 =
        some ({ s with opcode := 0xF01E, pc := s.pc + 2, I := s.I + 255 }) :=
      exec_opF01E ({ s with opcode := 0xF01E }) rfl hr
    have hcyc : cycle s 0 =
        some ({ s with opcode := 0xF01E, pc := s.pc + 2, I := s.I + 255 }, false) := by
      rw [cycle_eq 0 hb1 hb2, show ((0xF0 : Nat) <<< 8) ||| 0x1E = 0xF01E from by decide,
        hexec, Option.map_some',
        @timer_tick_zero ({ s with opcode := 0xF01E, pc := s.pc + 2, I := s.I + 255 }) hd hs]
    have hmem' : ∀ k, k < m →
        byteGet ({ s with opcode := 0xF01E, pc := s.pc + 2, I := s.I + 255 } : CPU).memory
          (({ s with opcode := 0xF01E, pc := s.pc + 2, I := s.I + 255 } : CPU).pc + 2 * k) =
            some 0xF0 ∧
        byteGet ({ s with opcode := 0xF01E, pc := s.pc + 2, I := s.I + 255 } : CPU).memory
          (({ s with opcode := 0xF01E, pc := s.pc + 2, I := s.I + 255 } : CPU).pc + 2 * k + 1) =
            some 0x1E := by
      intro k hk
      have hx := hmem (k + 1) (by omega)
      constructor
      · have h1 := hx.1
        rw [show s.pc + 2 * (k + 1) = s.pc + 2 + 2 * k from by ring] at h1
        exact h1
      · have h2 := hx.2
        rw [show s.pc + 2 * (k + 1) + 1 = s.pc + 2 + 2 * k + 1 from by ring] at h2
        exact h2
    obtain ⟨s', hrun, hI, hpc, hmemEq, hregEq, hd', hs'⟩ :=
      ih ({ s with opcode := 0xF01E, pc := s.pc + 2, I := s.I + 255 }) hmem' hr hd hs
    have hI' : s'.I = s.I + 255 + 255 * m := hI
    have hpc' : s'.pc = s.pc + 2 + 2 * m := hpc
    have hmemEq' : s'.memory = s.memory := hmemEq
    have hregEq' : s'.registers = s.registers := hregEq
    refine ⟨s', ?_, by omega, by omega, hmemEq', hregEq', hd', hs'⟩
    rw [run_succ s rfl, hcyc]
    simp only [Option.some_bind]
    exact hrun


/-- C3 counterexample: a concrete 260-instruction program — set V0 := 0xFF,
set I := 0xFFF, then 258 executions of opcode 0xF01E — reaches a state
whose index register is 69885 > 0xFFFF: the code never masks `I`. -/
theorem C3_counterexample : Reachable badC3 ∧ 0xFFFF < badC3.I := by
  obtain ⟨M, hload, hMlen, hMget, hMlow⟩ := loadBytes_spec romFx1E 0 initCPU.memory 512
    romFx1E_lt (by rw [romFx1E_length, initCPU_memory_length]; omega)
  have hgame : load_game initCPU romFx1E = some { initCPU with memory := M } := by
    simp only [load_game, Option.bind_eq_bind, Option.pure_def]
    rw [show initCPU.pc = 512 from rfl, hload]
    rfl
  have hs0 : s0Fx1E = { initCPU with memory := M } := by
    show (load_game initCPU romFx1E).getD initCPU = _
    rw [hgame]
    rfl
  have hM512 : M[(512 : Nat)]? = some 0x60 := by
    have h := hMget 0 (by rw [romFx1E_length]; omega)
    rw [show (512 : Nat) + 0 + 0 = 512 from by ring] at h
    rw [h, romFx1E, List.getElem?_append_left
      (by simp only [List.length_cons, List.length_nil]; omega)]
    decide
  have hM513 : M[(513 : Nat)]? = some 0xFF := by
    have h := hMget 1 (by rw [romFx1E_length]; omega)
    rw [show (512 : Nat) + 0 + 1 = 513 from by ring] at h
    rw [h, romFx1E, List.getElem?_append_left
      (by simp only [List.length_cons, List.length_nil]; omega)]
    decide
  have hM514 : M[(514 : Nat)]? = some 0xAF := by
    have h := hMget 2 (by rw [romFx1E_length]; omega)
    rw [show (512 : Nat) + 0 + 2 = 514 from by ring] at h
    rw [h, romFx1E, List.getElem?_append_left
      (by simp only [List.length_cons, List.length_nil]; omega)]
    decide
  have hM515 : M[(515 : Nat)]? = some 0xFF := by
    have h := hMget 3 (by rw [romFx1E_length]; omega)
    rw [show (512 : Nat) + 0 + 3 = 515 from by ring] at h
    rw [h, romFx1E, List.getElem?_append_left
      (by simp only [List.length_cons, List.length_nil]; omega)]
    decide
  -- step 1: 0x60FF, V0 := 0xFF
  have hb1 : byteGet ({ initCPU with memory := M } : CPU).memory
      ({ initCPU with memory := M } : CPU).pc = some 0x60 := hM512
  have hb2 : byteGet ({ initCPU with memory := M } : CPU).memory
      (({ initCPU with memory := M } : CPU).pc + 1) = some 0xFF := hM513
  have hexec1 : execute_instruction ({ initCPU with memory := M, opcode := 0x60FF }) 0 =
      some ({ initCPU with memory := M, opcode := 0x60FF, pc := 514, registers := (List.replicate 16 0).set 0 0xFF }) :=
    exec_op60FF ({ initCPU with memory := M, opcode := 0x60FF }) rfl
      (byteSet_some (by rw [show ({ initCPU with memory := M, opcode := 0x60FF } : CPU).registers = List.replicate 16 0 from rfl, List.length_replicate]; omega) (by norm_num))
  have hcyc1 : cycle ({ initCPU with memory := M }) 0 =
      some (({ initCPU with memory := M, opcode := 0x60FF, pc := 514, registers := (List.replicate 16 0).set 0 0xFF }), false) := by
    rw [cycle_eq 0 hb1 hb2, show ((0x60 : Nat) <<< 8) ||| 0xFF = 0x60FF from by decide,
      hexec1, Option.map_some',
      @timer_tick_zero ({ initCPU with memory := M, opcode := 0x60FF, pc := 514, registers := (List.replicate 16 0).set 0 0xFF }) rfl rfl]
  -- step 2: 0xAFFF, I := 0xFFF
  have hb3 : byteGet ({ initCPU with memory := M, opcode := 0x60FF, pc := 514, registers := (List.replicate 16 0).set 0 0xFF } : CPU).memory
      ({ initCPU with memory := M, opcode := 0x60FF, pc := 514, registers := (List.replicate 16 0).set 0 0xFF } : CPU).pc = some 0xAF := hM514
  have hb4 : byteGet ({ initCPU with memory := M, opcode := 0x60FF, pc := 514, registers := (List.replicate 16 0).set 0 0xFF } : CPU).memory
      (({ initCPU with memory := M, opcode := 0x60FF, pc := 514, registers := (List.replicate 16 0).set 0 0xFF } : CPU).pc + 1) = some 0xFF := hM515
  have hexec2 : execute_instruction ({ initCPU with memory := M, opcode := 0xAFFF, pc := 514, registers := (List.replicate 16 0).set 0 0xFF }) 0 =
      some ({ initCPU with memory := M, opcode := 0xAFFF, pc := 516, registers := (List.replicate 16 0).set 0 0xFF, I := 0xFFF }) :=
    exec_opAFFF ({ initCPU with memory := M, opcode := 0xAFFF, pc := 514, registers := (List.replicate 16 0).set 0 0xFF }) rfl
  have hcyc2 : cycle ({ initCPU with memory := M, opcode := 0x60FF, pc := 514, registers := (List.replicate 16 0).set 0 0xFF }) 0 =
      some (({ initCPU with memory := M, opcode := 0xAFFF, pc := 516, registers := (List.replicate 16 0).set 0 0xFF, I := 0xFFF }), false) := by
    rw [cycle_eq 0 hb3 hb4, show ((0xAF : Nat) <<< 8) ||| 0xFF = 0xAFFF from by decide,
      hexec2, Option.map_some',
      @timer_tick_zero ({ initCPU with memory := M, opcode := 0xAFFF, pc := 516, registers := (List.replicate 16 0).set 0 0xFF, I := 0xFFF }) rfl rfl]
  -- phase 3: 258 executions of 0xF01E
  have hmemF : ∀ k, k < 258 →
      byteGet ({ initCPU with memory := M, opcode := 0xAFFF, pc := 516, registers := (List.replicate 16 0).set 0 0xFF, I := 0xFFF } : CPU).memory
        (({ initCPU with memory := M, opcode := 0xAFFF, pc := 516, registers := (List.replicate 16 0).set 0 0xFF, I := 0xFFF } : CPU).pc + 2 * k) =
          some 0xF0 ∧
      byteGet ({ initCPU with memory := M, opcode := 0xAFFF, pc := 516, registers := (List.replicate 16 0).set 0 0xFF, I := 0xFFF } : CPU).memory
        (({ initCPU with memory := M, opcode := 0xAFFF, pc := 516, registers := (List.replicate 16 0).set 0 0xFF, I := 0xFFF } : CPU).pc + 2 * k + 1) =
          some 0x1E := by
    intro k hk
    constructor
    · have h := hMget (4 + 2 * k) (by rw [romFx1E_length]; omega)
      rw [romFx1E_get_even k hk] at h
      rw [show (512 : Nat) + 0 + (4 + 2 * k) = 516 + 2 * k from by ring] at h
      exact h
    · have h := hMget (4 + 2 * k + 1) (by rw [romFx1E_length]; omega)
      rw [romFx1E_get_odd k hk] at h
      rw [show (512 : Nat) + 0 + (4 + 2 * k + 1) = 516 + 2 * k + 1 from by ring] at h
      exact h
  have hr0 : byteGet ({ initCPU with memory := M, opcode := 0xAFFF, pc := 516, registers := (List.replicate 16 0).set 0 0xFF, I := 0xFFF } : CPU).registers 0 =
      some 255 := by
    show byteGet ((List.replicate 16 0).set 0 0xFF) 0 = some 255
    decide
  obtain ⟨sf, hrunF, hI, hpc, _, _, _, _⟩ :=
    runFx1E 258 ({ initCPU with memory := M, opcode := 0xAFFF, pc := 516, registers := (List.replicate 16 0).set 0 0xFF, I := 0xFFF }) hmemF hr0 rfl rfl
  have hI' : sf.I = 0xFFF + 255 * 258 := hI
  -- stitch the 260 steps
  have h260 : run ({ initCPU with memory := M }) 260 = some sf := by
    rw [run_cons (by norm_num : (260 : Nat) = 259 + 1) hcyc1,
      run_cons (by norm_num : (259 : Nat) = 258 + 1) hcyc2]
    exact hrunF
  have hbad : badC3 = sf := by
    show (run s0Fx1E 260).getD initCPU = sf
    rw [hs0, h260]
    rfl
  constructor
  · rw [hbad]
    exact run_reachable 260 _ sf (Reachable.load romFx1E _ hgame) h260
  · rw [hbad]
    omega


theorem Inv.withRegisters {s : CPU} (hI : Inv s) {r : List Nat} (hlen : r.length = 16)
    (hb : ∀ v ∈ r, v < 256) : Inv { s with registers := r } :=
  ⟨hlen, hI.mem_len, hI.gfx_len, hI.stack_len, hb, hI.mem_lt, hI.gfx_lt, hI.pc_lt,
    hI.stack_lt, hI.delay_lt, hI.sound_lt⟩

theorem Inv.withMemory {s : CPU} (hI : Inv s) {m : List Nat} (hlen : m.length = 4096)
    (hb : ∀ v ∈ m, v < 256) : Inv { s with memory := m } :=
  ⟨hI.regs_len, hlen, hI.gfx_len, hI.stack_len, hI.regs_lt, hb, hI.gfx_lt, hI.pc_lt,
    hI.stack_lt, hI.delay_lt, hI.sound_lt⟩

theorem Inv.withGfx {s : CPU} (hI : Inv s) {g : List Nat} (hlen : g.length = 2048)
    (hb : ∀ v ∈ g, v < 256) : Inv { s with gfx := g } :=
  ⟨hI.regs_len, hI.mem_len, hlen, hI.stack_len, hI.regs_lt, hI.mem_lt, hb, hI.pc_lt,
    hI.stack_lt, hI.delay_lt, hI.sound_lt⟩

theorem Inv.withPC {s : CPU} (hI : Inv s) {p : Nat} (hp : p < 65536) :
    Inv { s with pc := p } :=
  ⟨hI.regs_len, hI.mem_len, hI.gfx_len, hI.stack_len, hI.regs_lt, hI.mem_lt, hI.gfx_lt,
    hp, hI.stack_lt, hI.delay_lt, hI.sound_lt⟩

theorem Inv.withI {s : CPU} (hI : Inv s) {n : Nat} : Inv { s with I := n } :=
  ⟨hI.regs_len, hI.mem_len, hI.gfx_len, hI.stack_len, hI.regs_lt, hI.mem_lt, hI.gfx_lt,
    hI.pc_lt, hI.stack_lt, hI.delay_lt, hI.sound_lt⟩

theorem Inv.withOpcode {s : CPU} (hI : Inv s) {n : Nat} : Inv { s with opcode := n } :=
  ⟨hI.regs_len, hI.mem_len, hI.gfx_len, hI.stack_len, hI.regs_lt, hI.mem_lt, hI.gfx_lt,
    hI.pc_lt, hI.stack_lt, hI.delay_lt, hI.sound_lt⟩

theorem Inv.withDrawFlag {s : CPU} (hI : Inv s) {b : Bool} : Inv { s with drawFlag := b } :=
  ⟨hI.regs_len, hI.mem_len, hI.gfx_len, hI.stack_len, hI.regs_lt, hI.mem_lt, hI.gfx_lt,
    hI.pc_lt, hI.stack_lt, hI.delay_lt, hI.sound_lt⟩

theorem Inv.withTimers {s : CPU} (hI : Inv s) {d sn : Nat} (hd : d < 256) (hs : sn < 256) :
    Inv { s with delay_timer := d, sound_timer := sn } :=
  ⟨hI.regs_len, hI.mem_len, hI.gfx_len, hI.stack_len, hI.regs_lt, hI.mem_lt, hI.gfx_lt,
    hI.pc_lt, hI.stack_lt, hd, hs⟩

theorem Inv.withPcSp {s : CPU} (hI : Inv s) {p : Nat} {z : Int} (hp : p < 65536) :
    Inv { s with pc := p, sp := z } :=
  ⟨hI.regs_len, hI.mem_len, hI.gfx_len, hI.stack_len, hI.regs_lt, hI.mem_lt, hI.gfx_lt,
    hp, hI.stack_lt, hI.delay_lt, hI.sound_lt⟩

theorem Inv.withCall {s : CPU} (hI : Inv s) {st : List Nat} {p : Nat} {z : Int}
    (hlen : st.length = 16) (hb : ∀ v ∈ st, v < 65536) (hp : p < 65536) :
    Inv { s with sp := z, stack := st, pc := p } :=
  ⟨hI.regs_len, hI.mem_len, hI.gfx_len, hlen, hI.regs_lt, hI.mem_lt, hI.gfx_lt,
    hp, hb, hI.delay_lt, hI.sound_lt⟩

theorem byteGet_lt256 {a : List Nat} {i v : Nat} (h : byteGet a i = some v)
    (hb : ∀ w ∈ a, w < 256) : v < 256 := hb v (byteGet_mem h)

theorem nnn_lt (op : Nat) : op &&& 0x0FFF < 65536 :=
  Nat.lt_of_le_of_lt Nat.and_le_right (by norm_num)

theorem clear_display_inv {s s' : CPU} (hI : Inv s) (h : clear_display s = some s') :
    Inv s' := by
  obtain rfl : ({ s with gfx := List.replicate (64 * 32) 0, drawFlag := true } : CPU) = s' :=
    Option.some.inj h
  exact (@Inv.withGfx s hI (List.replicate (64 * 32) 0)
    (by simp only [List.length_replicate])
    (by intro v hv; rw [List.eq_of_mem_replicate hv]; norm_num)).withDrawFlag

theorem return_from_subroutine_inv {s s' : CPU} (hI : Inv s)
    (h : return_from_subroutine s = some s') : Inv s' := by
  simp only [return_from_subroutine, Option.bind_eq_bind, Option.bind_eq_some,
    Option.pure_def, Option.some.injEq] at h
  obtain ⟨top, htop, rfl⟩ := h
  exact hI.withPcSp (hI.stack_lt top (pyGet_mem htop))

theorem execute_zero_inv {s s' : CPU} (hI : Inv s) (h : execute_zero s = some s') :
    Inv s' := by
  simp only [execute_zero] at h
  split_ifs at h
  · exact clear_display_inv hI h
  · exact return_from_subroutine_inv hI h
  · obtain rfl : s = s' := by simpa using h
    exact hI

theorem jump_to_addr_inv {s s' : CPU} (hI : Inv s) (h : jump_to_addr s = some s') :
    Inv s' := by
  obtain rfl : ({ s with pc := s.opcode &&& 0x0FFF } : CPU) = s' := by
    simpa [jump_to_addr] using h
  exact hI.withPC (nnn_lt s.opcode)

theorem call_addr_inv {s s' : CPU} (hI : Inv s) (h : call_addr s = some s') : Inv s' := by
  simp only [call_addr, Option.bind_eq_bind, Option.bind_eq_some, Option.pure_def,
    Option.some.injEq] at h
  obtain ⟨st, hst, rfl⟩ := h
  obtain ⟨k, rfl⟩ := pySet_eq_set hst
  refine hI.withCall (by rw [List.length_set]; exact hI.stack_len) ?_ (nnn_lt s.opcode)
  intro v hv
  rcases List.mem_or_eq_of_mem_set hv with hv | rfl
  · exact hI.stack_lt v hv
  · exact hI.pc_lt

theorem skip_eq_inv {s s' : CPU} (hI : Inv s) (hpc : s.pc + 2 < 65536)
    (h : skip_next_instruction_if_registers_and_val_equal s = some s') : Inv s' := by
  simp only [skip_next_instruction_if_registers_and_val_equal, Option.bind_eq_bind,
    Option.bind_eq_some, Option.pure_def, Option.some.injEq] at h
  obtain ⟨rx, _, rfl⟩ := h
  split
  · exact hI.withPC hpc
  · exact hI

theorem skip_ne_inv {s s' : CPU} (hI : Inv s) (hpc : s.pc + 2 < 65536)
    (h : skip_next_instruction_if_registers_and_val_not_equal s = some s') : Inv s' := by
  simp only [skip_next_instruction_if_registers_and_val_not_equal, Option.bind_eq_bind,
    Option.bind_eq_some, Option.pure_def, Option.some.injEq] at h
  obtain ⟨rx, _, rfl⟩ := h
  split
  · exact hI.withPC hpc
  · exact hI

theorem skip_rr_inv {s s' : CPU} (hI : Inv s) (hpc : s.pc + 2 < 65536)
    (h : skip_next_instruction_if_registers_equal s = some s') : Inv s' := by
  simp only [skip_next_instruction_if_registers_equal, Option.bind_eq_bind,
    Option.bind_eq_some, Option.pure_def, Option.some.injEq] at h
  obtain ⟨rx, _, ry, _, rfl⟩ := h
  split
  · exact hI.withPC hpc
  · exact hI

theorem skip_rrne_inv {s s' : CPU} (hI : Inv s) (hpc : s.pc + 2 < 65536)
    (h : skip_if_registers_neq s = some s') : Inv s' := by
  simp only [skip_if_registers_neq, Option.bind_eq_bind,
    Option.bind_eq_some, Option.pure_def, Option.some.injEq] at h
  obtain ⟨rx, _, ry, _, rfl⟩ := h
  split
  · exact hI.withPC hpc
  · exact hI

theorem set_register_value_inv {s s' : CPU} (hI : Inv s)
    (h : set_register_value s = some s') : Inv s' := by
  simp only [set_register_value, Option.bind_eq_bind, Option.bind_eq_some,
    Option.pure_def, Option.some.injEq] at h
  obtain ⟨regs, hset, rfl⟩ := h
  obtain ⟨_, hv, rfl⟩ := byteSet_eq_some hset
  exact hI.withRegisters (by rw [List.length_set]; exact hI.regs_len)
    (mem_set_lt hI.regs_lt hv)

theorem add_register_value_inv {s s' : CPU} (hI : Inv s)
    (h : add_register_value s = some s') : Inv s' := by
  simp only [add_register_value, Option.bind_eq_bind, Option.bind_eq_some,
    Option.pure_def, Option.some.injEq] at h
  obtain ⟨rx, _, regs, hset, rfl⟩ := h
  obtain ⟨_, hv, rfl⟩ := byteSet_eq_some hset
  exact hI.withRegisters (by rw [List.length_set]; exact hI.regs_len)
    (mem_set_lt hI.regs_lt hv)

theorem set_register_to_register_inv {s s' : CPU} (hI : Inv s)
    (h : set_register_to_register s = some s') : Inv s' := by
  simp only [set_register_to_register, Option.bind_eq_bind, Option.bind_eq_some,
    Option.pure_def, Option.some.injEq] at h
  obtain ⟨ry, _, regs, hset, rfl⟩ := h
  obtain ⟨_, hv, rfl⟩ := byteSet_eq_some hset
  exact hI.withRegisters (by rw [List.length_set]; exact hI.regs_len)
    (mem_set_lt hI.regs_lt hv)

theorem or_registers_inv {s s' : CPU} (hI : Inv s) (h : or_registers s = some s') :
    Inv s' := by
  simp only [or_registers, Option.bind_eq_bind, Option.bind_eq_some,
    Option.pure_def, Option.some.injEq] at h
  obtain ⟨rx, _, ry, _, regs, hset, rfl⟩ := h
  obtain ⟨_, hv, rfl⟩ := byteSet_eq_some hset
  exact hI.withRegisters (by rw [List.length_set]; exact hI.regs_len)
    (mem_set_lt hI.regs_lt hv)

theorem and_registers_inv {s s' : CPU} (hI : Inv s) (h : and_registers s = some s') :
    Inv s' := by
  simp only [and_registers, Option.bind_eq_bind, Option.bind_eq_some,
    Option.pure_def, Option.some.injEq] at h
  obtain ⟨rx, _, ry, _, regs, hset, rfl⟩ := h
  obtain ⟨_, hv, rfl⟩ := byteSet_eq_some hset
  exact hI.withRegisters (by rw [List.length_set]; exact hI.regs_len)
    (mem_set_lt hI.regs_lt hv)

theorem xor_registers_inv {s s' : CPU} (hI : Inv s) (h : xor_registers s = some s') :
    Inv s' := by
  simp only [xor_registers, Option.bind_eq_bind, Option.bind_eq_some,
    Option.pure_def, Option.some.injEq] at h
  obtain ⟨rx, _, ry, _, regs, hset, rfl⟩ := h
  obtain ⟨_, hv, rfl⟩ := byteSet_eq_some hset
  exact hI.withRegisters (by rw [List.length_set]; exact hI.regs_len)
    (mem_set_lt hI.regs_lt hv)

theorem add_registers_inv {s s' : CPU} (hI : Inv s) (h : add_registers s = some s') :
    Inv s' := by
  simp only [add_registers, Option.bind_eq_bind, Option.bind_eq_some,
    Option.pure_def, Option.some.injEq] at h
  obtain ⟨rx, _, ry, _, regs1, hset1, rx', _, ry', _, regs2, hset2, rfl⟩ := h
  obtain ⟨_, hv1, rfl⟩ := byteSet_eq_some hset1
  obtain ⟨_, hv2, rfl⟩ := byteSet_eq_some hset2
  exact hI.withRegisters (by rw [List.length_set, List.length_set]; exact hI.regs_len)
    (mem_set_lt (mem_set_lt hI.regs_lt hv1) hv2)

theorem sub_registers_inv {s s' : CPU} (hI : Inv s) (h : sub_registers s = some s') :
    Inv s' := by
  simp only [sub_registers, Option.bind_eq_bind, Option.bind_eq_some,
    Option.pure_def, Option.some.injEq] at h
  obtain ⟨rx, _, ry, _, regs1, hset1, rx', _, ry', _, regs2, hset2, rfl⟩ := h
  obtain ⟨_, hv1, rfl⟩ := byteSet_eq_some hset1
  obtain ⟨_, hv2, rfl⟩ := byteSet_eq_some hset2
  exact hI.withRegisters (by rw [List.length_set, List.length_set]; exact hI.regs_len)
    (mem_set_lt (mem_set_lt hI.regs_lt hv1) hv2)

theorem subn_registers_inv {s s' : CPU} (hI : Inv s) (h : subn_registers s = some s') :
    Inv s' := by
  simp only [subn_registers, Option.bind_eq_bind, Option.bind_eq_some,
    Option.pure_def, Option.some.injEq] at h
  obtain ⟨rx, _, ry, _, regs1, hset1, rx', _, ry', _, regs2, hset2, rfl⟩ := h
  obtain ⟨_, hv1, rfl⟩ := byteSet_eq_some hset1
  obtain ⟨_, hv2, rfl⟩ := byteSet_eq_some hset2
  exact hI.withRegisters (by rw [List.length_set, List.length_set]; exact hI.regs_len)
    (mem_set_lt (mem_set_lt hI.regs_lt hv1) hv2)

theorem shift_right_inv {s s' : CPU} (hI : Inv s) (h : shift_right s = some s') :
    Inv s' := by
  simp only [shift_right, Option.bind_eq_bind, Option.bind_eq_some,
    Option.pure_def, Option.some.injEq] at h
  obtain ⟨rx, _, regs1, hset1, rx', _, regs2, hset2, rfl⟩ := h
  obtain ⟨_, hv1, rfl⟩ := byteSet_eq_some hset1
  obtain ⟨_, hv2, rfl⟩ := byteSet_eq_some hset2
  exact hI.withRegisters (by rw [List.length_set, List.length_set]; exact hI.regs_len)
    (mem_set_lt (mem_set_lt hI.regs_lt hv1) hv2)

theorem shift_left_inv {s s' : CPU} (hI : Inv s) (h : shift_left s = some s') :
    Inv s' := by
  simp only [shift_left, Option.bind_eq_bind, Option.bind_eq_some,
    Option.pure_def, Option.some.injEq] at h
  obtain ⟨rx, _, regs1, hset1, rx', _, regs2, hset2, rfl⟩ := h
  obtain ⟨_, hv1, rfl⟩ := byteSet_eq_some hset1
  obtain ⟨_, hv2, rfl⟩ := byteSet_eq_some hset2
  exact hI.withRegisters (by rw [List.length_set, List.length_set]; exact hI.regs_len)
    (mem_set_lt (mem_set_lt hI.regs_lt hv1) hv2)

theorem not_implemented_inv {s s' : CPU} (hI : Inv s) (h : not_implemented s = some s') :
    Inv s' := by
  obtain rfl : s = s' := by simpa [not_implemented] using h
  exact hI

theorem execute_logic_operations_inv {s s' : CPU} (hI : Inv s)
    (h : execute_logic_operations s = some s') : Inv s' := by
  simp only [execute_logic_operations] at h
  split_ifs at h
  · exact set_register_to_register_inv hI h
  · exact or_registers_inv hI h
  · exact and_registers_inv hI h
  · exact xor_registers_inv hI h
  · exact add_registers_inv hI h
  · exact sub_registers_inv hI h
  · exact shift_right_inv hI h
  · exact subn_registers_inv hI h
  · exact shift_left_inv hI h
  · exact not_implemented_inv hI h

theorem load_index_reg_with_value_inv {s s' : CPU} (hI : Inv s)
    (h : load_index_reg_with_value s = some s') : Inv s' := by
  obtain rfl : ({ s with I := s.opcode &&& 0x0FFF } : CPU) = s' := by
    simpa [load_index_reg_with_value] using h
  exact hI.withI

theorem jump_to_addr_plus_v0_inv {s s' : CPU} (hI : Inv s)
    (h : jump_to_addr_plus_v0 s = some s') : Inv s' := by
  simp only [jump_to_addr_plus_v0, Option.bind_eq_bind, Option.bind_eq_some,
    Option.pure_def, Option.some.injEq] at h
  obtain ⟨r0, hr0, rfl⟩ := h
  have h1 : r0 < 256 := byteGet_lt256 hr0 hI.regs_lt
  have h2 : s.opcode &&& 0x0FFF < 65536 := nnn_lt s.opcode
  have h3 : s.opcode &&& 0x0FFF ≤ 4095 := Nat.and_le_right
  exact hI.withPC (by omega)

theorem set_random_register_and_kk_inv {s s' : CPU} {rand : Nat} (hI : Inv s)
    (h : set_random_register_and_kk s rand = some s') : Inv s' := by
  simp only [set_random_register_and_kk, Option.bind_eq_bind, Option.bind_eq_some,
    Option.pure_def, Option.some.injEq] at h
  obtain ⟨regs, hset, rfl⟩ := h
  obtain ⟨_, hv, rfl⟩ := byteSet_eq_some hset
  exact hI.withRegisters (by rw [List.length_set]; exact hI.regs_len)
    (mem_set_lt hI.regs_lt hv)

theorem drawCols_inv : ∀ (rem xline Vx Vy yline sprite : Nat) (s s' : CPU),
    drawCols Vx Vy yline sprite xline rem s = some s' → Inv s → Inv s' := by
  intro rem
  induction rem with
  | zero =>
    intro xline Vx Vy yline sprite s s' h hI
    obtain rfl : s = s' := by simpa [drawCols] using h
    exact hI
  | succ m ih =>
    intro xline Vx Vy yline sprite s s' h hI
    simp only [drawCols] at h
    by_cases hbit : sprite &&& (0x80 >>> xline) ≠ 0
    · rw [if_pos hbit] at h
      simp only [Option.bind_eq_bind, Option.bind_eq_some, Option.pure_def,
        Option.some_bind] at h
      obtain ⟨ry, hry, rx, hrx, p, hp, hres⟩ := h
      by_cases hp1 : p = 1
      · rw [if_pos hp1] at hres
        simp only [Option.bind_eq_bind, Option.bind_eq_some, Option.pure_def,
          Option.some_bind] at hres
        obtain ⟨regs, hregs, ry', hry', rx', hrx', q, hq, g, hg, hrec⟩ := hres
        obtain ⟨hri, hv1, rfl⟩ := byteSet_eq_some hregs
        obtain ⟨hgi, hvg, rfl⟩ := byteSet_eq_some hg
        exact ih (xline + 1) Vx Vy yline sprite _ s' hrec
          ((hI.withRegisters (by rw [List.length_set]; exact hI.regs_len)
              (mem_set_lt hI.regs_lt hv1)).withGfx
            (by rw [List.length_set]; exact hI.gfx_len)
            (mem_set_lt hI.gfx_lt hvg))
      · rw [if_neg hp1] at hres
        simp only [Option.bind_eq_bind, Option.bind_eq_some, Option.pure_def,
          Option.some_bind] at hres
        obtain ⟨ry', hry', rx', hrx', q, hq, g, hg, hrec⟩ := hres
        obtain ⟨hgi, hvg, rfl⟩ := byteSet_eq_some hg
        exact ih (xline + 1) Vx Vy yline sprite _ s' hrec
          (hI.withGfx (by rw [List.length_set]; exact hI.gfx_len)
            (mem_set_lt hI.gfx_lt hvg))
    · rw [if_neg hbit] at h
      simp only [Option.pure_def, Option.some_bind] at h
      exact ih (xline + 1) Vx Vy yline sprite s s' h hI

theorem drawRows_inv : ∀ (rem yline Vx Vy : Nat) (s s' : CPU),
    drawRows Vx Vy yline rem s = some s' → Inv s → Inv s' := by
  intro rem
  induction rem with
  | zero =>
    intro yline Vx Vy s s' h hI
    obtain rfl : s = s' := by simpa [drawRows] using h
    exact hI
  | succ m ih =>
    intro yline Vx Vy s s' h hI
    simp only [drawRows, Option.bind_eq_bind, Option.bind_eq_some] at h
    obtain ⟨sprite, _, s1, hcols, hrec⟩ := h
    exact ih (yline + 1) Vx Vy s1 s' hrec (drawCols_inv 8 0 Vx Vy yline sprite s s1 hcols hI)

theorem draw_sprite_inv {s s' : CPU} (hI : Inv s) (h : draw_sprite s = some s') :
    Inv s' := by
  simp only [draw_sprite, Option.bind_eq_bind, Option.bind_eq_some,
    Option.pure_def, Option.some.injEq] at h
  obtain ⟨regs, hset, t, hrows, rfl⟩ := h
  obtain ⟨_, hv, rfl⟩ := byteSet_eq_some hset
  have hI1 : Inv { s with registers := s.registers.set 0xF 0 } :=
    hI.withRegisters (by rw [List.length_set]; exact hI.regs_len)
      (mem_set_lt hI.regs_lt hv)
  exact (drawRows_inv _ 0 _ _ _ t hrows hI1).withDrawFlag

theorem set_vx_to_delay_timer_inv {s s' : CPU} (hI : Inv s)
    (h : set_vx_to_delay_timer s = some s') : Inv s' := by
  simp only [set_vx_to_delay_timer, Option.bind_eq_bind, Option.bind_eq_some,
    Option.pure_def, Option.some.injEq] at h
  obtain ⟨regs, hset, rfl⟩ := h
  obtain ⟨_, hv, rfl⟩ := byteSet_eq_some hset
  exact hI.withRegisters (by rw [List.length_set]; exact hI.regs_len)
    (mem_set_lt hI.regs_lt hv)

theorem set_delay_timer_to_register_inv {s s' : CPU} (hI : Inv s)
    (h : set_delay_timer_to_register s = some s') : Inv s' := by
  simp only [set_delay_timer_to_register, Option.bind_eq_bind, Option.bind_eq_some,
    Option.pure_def, Option.some.injEq] at h
  obtain ⟨rx, hrx, rfl⟩ := h
  exact hI.withTimers (byteGet_lt256 hrx hI.regs_lt) hI.sound_lt

theorem set_sound_timer_to_register_inv {s s' : CPU} (hI : Inv s)
    (h : set_sound_timer_to_register s = some s') : Inv s' := by
  simp only [set_sound_timer_to_register, Option.bind_eq_bind, Option.bind_eq_some,
    Option.pure_def, Option.some.injEq] at h
  obtain ⟨rx, hrx, rfl⟩ := h
  exact hI.withTimers hI.delay_lt (byteGet_lt256 hrx hI.regs_lt)

theorem add_register_to_index_inv {s s' : CPU} (hI : Inv s)
    (h : add_register_to_index s = some s') : Inv s' := by
  simp only [add_register_to_index, Option.bind_eq_bind, Option.bind_eq_some,
    Option.pure_def, Option.some.injEq] at h
  obtain ⟨rx, _, rfl⟩ := h
  exact hI.withI

theorem set_i_to_sprite_address_inv {s s' : CPU} (hI : Inv s)
    (h : set_i_to_sprite_address s = some s') : Inv s' := by
  simp only [set_i_to_sprite_address, Option.bind_eq_bind, Option.bind_eq_some,
    Option.pure_def, Option.some.injEq] at h
  obtain ⟨rx, _, rfl⟩ := h
  exact hI.withI

theorem set_bcd_of_register_inv {s s' : CPU} (hI : Inv s)
    (h : set_bcd_of_register s = some s') : Inv s' := by
  simp only [set_bcd_of_register, Option.bind_eq_bind, Option.bind_eq_some,
    Option.pure_def, Option.some.injEq] at h
  obtain ⟨v, _, m1, hm1, m2, hm2, m3, hm3, rfl⟩ := h
  obtain ⟨_, hv1, rfl⟩ := byteSet_eq_some hm1
  obtain ⟨_, hv2, rfl⟩ := byteSet_eq_some hm2
  obtain ⟨_, hv3, rfl⟩ := byteSet_eq_some hm3
  exact hI.withMemory
    (by rw [List.length_set, List.length_set, List.length_set]; exact hI.mem_len)
    (mem_set_lt (mem_set_lt (mem_set_lt hI.mem_lt hv1) hv2) hv3)

theorem storeRegsLoop_inv : ∀ (rem i iVal : Nat) (regs mem mem' : List Nat),
    storeRegsLoop iVal regs i rem mem = some mem' → (∀ v ∈ mem, v < 256) →
    mem'.length = mem.length ∧ ∀ v ∈ mem', v < 256 := by
  intro rem
  induction rem with
  | zero =>
    intro i iVal regs mem mem' h hb
    obtain rfl : mem = mem' := by simpa [storeRegsLoop] using h
    exact ⟨rfl, hb⟩
  | succ m ih =>
    intro i iVal regs mem mem' h hb
    simp only [storeRegsLoop, Option.bind_eq_bind, Option.bind_eq_some] at h
    obtain ⟨r, _, m1, hm1, hrec⟩ := h
    obtain ⟨_, hv, rfl⟩ := byteSet_eq_some hm1
    obtain ⟨hl, hv'⟩ := ih (i + 1) iVal regs _ mem' hrec (mem_set_lt hb hv)
    exact ⟨by rw [hl, List.length_set], hv'⟩

theorem loadRegsLoop_inv : ∀ (rem i iVal : Nat) (mem regs regs' : List Nat),
    loadRegsLoop iVal mem i rem regs = some regs' → (∀ v ∈ regs, v < 256) →
    regs'.length = regs.length ∧ ∀ v ∈ regs', v < 256 := by
  intro rem
  induction rem with
  | zero =>
    intro i iVal mem regs regs' h hb
    obtain rfl : regs = regs' := by simpa [loadRegsLoop] using h
    exact ⟨rfl, hb⟩
  | succ m ih =>
    intro i iVal mem regs regs' h hb
    simp only [loadRegsLoop, Option.bind_eq_bind, Option.bind_eq_some] at h
    obtain ⟨r, _, r1, hr1, hrec⟩ := h
    obtain ⟨_, hv, rfl⟩ := byteSet_eq_some hr1
    obtain ⟨hl, hv'⟩ := ih (i + 1) iVal mem _ regs' hrec (mem_set_lt hb hv)
    exact ⟨by rw [hl, List.length_set], hv'⟩

theorem store_registers_inv {s s' : CPU} (hI : Inv s)
    (h : store_registers s = some s') : Inv s' := by
  simp only [store_registers, Option.bind_eq_bind, Option.bind_eq_some,
    Option.pure_def, Option.some.injEq] at h
  obtain ⟨mem, hmem, rfl⟩ := h
  obtain ⟨hl, hv⟩ := storeRegsLoop_inv _ _ _ _ _ _ hmem hI.mem_lt
  exact hI.withMemory (by rw [hl]; exact hI.mem_len) hv

theorem load_registers_inv {s s' : CPU} (hI : Inv s)
    (h : load_registers s = some s') : Inv s' := by
  simp only [load_registers, Option.bind_eq_bind, Option.bind_eq_some,
    Option.pure_def, Option.some.injEq] at h
  obtain ⟨regs, hregs, rfl⟩ := h
  obtain ⟨hl, hv⟩ := loadRegsLoop_inv _ _ _ _ _ _ hregs hI.regs_lt
  exact hI.withRegisters (by rw [hl]; exact hI.regs_len) hv

theorem wait_for_keypress_inv {s s' : CPU} (hI : Inv s)
    (h : wait_for_keypress s = some s') : Inv s' :=
  not_implemented_inv hI h

theorem execute_misc_inv {s s' : CPU} (hI : Inv s) (h : execute_misc s = some s') :
    Inv s' := by
  simp only [execute_misc] at h
  split_ifs at h
  · exact set_vx_to_delay_timer_inv hI h
  · exact wait_for_keypress_inv hI h
  · exact set_delay_timer_to_register_inv hI h
  · exact set_sound_timer_to_register_inv hI h
  · exact add_register_to_index_inv hI h
  · exact set_i_to_sprite_address_inv hI h
  · exact set_bcd_of_register_inv hI h
  · exact store_registers_inv hI h
  · exact load_registers_inv hI h
  · exact not_implemented_inv hI h

theorem execute_instruction_inv {s s' : CPU} {rand : Nat} (hI : Inv s)
    (hpc : s.pc ≤ 4094) (h : execute_instruction s rand = some s') : Inv s' := by
  have hI2 : Inv { s with pc := s.pc + 2 } := hI.withPC (by omega)
  have hpc2 : ({ s with pc := s.pc + 2 } : CPU).pc + 2 < 65536 := by
    show s.pc + 2 + 2 < 65536
    omega
  simp only [execute_instruction] at h
  by_cases c0 : (s.opcode &&& 0xF000) >>> 12 = 0x0
  · rw [if_pos c0] at h
    exact execute_zero_inv hI2 h
  rw [if_neg c0] at h
  by_cases c1 : (s.opcode &&& 0xF000) >>> 12 = 0x1
  · rw [if_pos c1] at h
    exact jump_to_addr_inv hI2 h
  rw [if_neg c1] at h
  by_cases c2 : (s.opcode &&& 0xF000) >>> 12 = 0x2
  · rw [if_pos c2] at h
    exact call_addr_inv hI2 h
  rw [if_neg c2] at h
  by_cases c3 : (s.opcode &&& 0xF000) >>> 12 = 0x3
  · rw [if_pos c3] at h
    exact skip_eq_inv hI2 hpc2 h
  rw [if_neg c3] at h
  by_cases c4 : (s.opcode &&& 0xF000) >>> 12 = 0x4
  · rw [if_pos c4] at h
    exact skip_ne_inv hI2 hpc2 h
  rw [if_neg c4] at h
  by_cases c5 : (s.opcode &&& 0xF000) >>> 12 = 0x5
  · rw [if_pos c5] at h
    exact skip_rr_inv hI2 hpc2 h
  rw [if_neg c5] at h
  by_cases c6 : (s.opcode &&& 0xF000) >>> 12 = 0x6
  · rw [if_pos c6] at h
    exact set_register_value_inv hI2 h
  rw [if_neg c6] at h
  by_cases c7 : (s.opcode &&& 0xF000) >>> 12 = 0x7
  · rw [if_pos c7] at h
    exact add_register_value_inv hI2 h
  rw [if_neg c7] at h
  by_cases c8 : (s.opcode &&& 0xF000) >>> 12 = 0x8
  · rw [if_pos c8] at h
    exact execute_logic_operations_inv hI2 h
  rw [if_neg c8] at h
  by_cases c9 : (s.opcode &&& 0xF000) >>> 12 = 0x9
  · rw [if_pos c9] at h
    exact skip_rrne_inv hI2 hpc2 h
  rw [if_neg c9] at h
  by_cases ca : (s.opcode &&& 0xF000) >>> 12 = 0xA
  · rw [if_pos ca] at h
    exact load_index_reg_with_value_inv hI2 h
  rw [if_neg ca] at h
  by_cases cb : (s.opcode &&& 0xF000) >>> 12 = 0xB
  · rw [if_pos cb] at h
    exact jump_to_addr_plus_v0_inv hI2 h
  rw [if_neg cb] at h
  by_cases cc : (s.opcode &&& 0xF000) >>> 12 = 0xC
  · rw [if_pos cc] at h
    exact set_random_register_and_kk_inv hI2 h
  rw [if_neg cc] at h
  by_cases cd : (s.opcode &&& 0xF000) >>> 12 = 0xD
  · rw [if_pos cd] at h
    exact draw_sprite_inv hI2 h
  rw [if_neg cd] at h
  by_cases ce : (s.opcode &&& 0xF000) >>> 12 = 0xE
  · rw [if_pos ce] at h
    exact not_implemented_inv hI2 h
  rw [if_neg ce] at h
  by_cases cf : (s.opcode &&& 0xF000) >>> 12 = 0xF
  · rw [if_pos cf] at h
    exact execute_misc_inv hI2 h
  rw [if_neg cf] at h
  obtain rfl : ({ s with pc := s.pc + 2 } : CPU) = s' := Option.some.inj h
  exact hI2

theorem timer_tick_inv {t : CPU} (hI : Inv t) : Inv (timer_tick t).1 := by
  have hd := hI.delay_lt
  have hs := hI.sound_lt
  unfold timer_tick
  by_cases h1 : 0 < t.delay_timer <;> by_cases h2 : 0 < t.sound_timer <;>
    simp only [h1, h2, if_true, if_false, ite_true, ite_false]
  · exact hI.withTimers (by omega) (by omega)
  · exact hI.withTimers (by omega) hs
  · exact hI.withTimers hd (by omega)
  · exact hI

theorem cycle_inv {s s' : CPU} {rand : Nat} {b : Bool} (hI : Inv s)
    (h : cycle s rand = some (s', b)) : Inv s' := by
  simp only [cycle, Option.bind_eq_bind, Option.bind_eq_some, Option.pure_def,
    Option.some.injEq] at h
  obtain ⟨b1, hb1, b2, hb2, t, ht, hpair⟩ := h
  have hpcb : s.pc + 1 < s.memory.length := byteGet_lt_length hb2
  have hpc : s.pc ≤ 4094 := by
    rw [hI.mem_len] at hpcb
    omega
  have hIt : Inv t := execute_instruction_inv hI.withOpcode (by show s.pc ≤ 4094; exact hpc) ht
  have h1 : s' = (timer_tick t).1 := by rw [hpair]
  rw [h1]
  exact timer_tick_inv hIt

theorem Inv_initCPU : Inv initCPU := by
  refine ⟨?_, initCPU_memory_length, ?_, ?_, ?_, initCPU_memory_lt, ?_, ?_, ?_, ?_, ?_⟩
  · show (List.replicate 16 (0 : Nat)).length = 16
    rw [List.length_replicate]
  · show (List.replicate (64 * 32) (0 : Nat)).length = 2048
    rw [List.length_replicate]
  · show (List.replicate 16 (0 : Nat)).length = 16
    rw [List.length_replicate]
  · intro v hv
    have := List.eq_of_mem_replicate hv
    omega
  · intro v hv
    have := List.eq_of_mem_replicate hv
    omega
  · show (512 : Nat) < 65536
    omega
  · intro v hv
    have := List.eq_of_mem_replicate hv
    omega
  · show (0 : Nat) < 256
    omega
  · show (0 : Nat) < 256
    omega

theorem Reachable_inv {s : CPU} (h : Reachable s) : Inv s := by
  induction h with
  | load rom s hload =>
    simp only [load_game, Option.bind_eq_bind, Option.bind_eq_some, Option.pure_def,
      Option.some.injEq] at hload
    obtain ⟨mem, hmem, rfl⟩ := hload
    obtain ⟨hl, hv⟩ := loadBytes_inv rom 0 _ mem initCPU.pc hmem initCPU_memory_lt
    exact Inv_initCPU.withMemory (by rw [hl]; exact initCPU_memory_length) hv
  | step s s2 rand b _ hcyc ih =>
    exact cycle_inv ih hcyc


/-- C3, amended: in every state reachable from the constructed machine —
any program image loaded at 0x200, then any number of successful steps —
all 16 registers and all 4096 memory bytes hold values in 0..255 and the
program counter stays within 16 bits.  The index register is the
exception the original claim got wrong: `add_register_to_index` never
masks `I`, so repeated 0xFx1E drives it above 0xFFFF (see the
counterexample). -/
theorem C3_invariant (s : CPU) (h : Reachable s) :
    (∀ v ∈ s.registers, v < 256) ∧ (∀ v ∈ s.memory, v < 256) ∧ s.pc < 65536 :=
  ⟨(Reachable_inv h).regs_lt, (Reachable_inv h).mem_lt, (Reachable_inv h).pc_lt⟩

/-- C3 witness: the freshly constructed machine with an empty program. -/
theorem C3_witness :
    (∀ v ∈ initCPU.registers, v < 256) ∧ (∀ v ∈ initCPU.memory, v < 256) ∧
      initCPU.pc < 65536 :=
  C3_invariant initCPU (Reachable.load [] initCPU rfl)

end Chip8
